import Mathlib

/-!
Inspektor Gadget lifecycle coordinator

A shallow embedding of `internal/components/inspektorgadget/gadgetmanager.go`
(result truncation, instance listing, deployment oracle, starting and running a
gadget) and of
`internal/components/inspektorgadget/handlers.go` (parameter translators, tool
handlers), together with the properties their specification states about them.

Conventions of the embedding:

* a Go `string` is an immutable sequence of bytes, so it is a `List UInt8`;
  `len(s)` is `List.length`, `s[:n]` is `List.take n`, `+` is `++`;
* a Go string literal denotes the UTF-8 bytes of its source text (`lit`);
* a Go `error` is the tree built by `errors.New` / `fmt.Errorf` (`GoError`), and
  a possibly-nil `error` is an `Option GoError`;
* calls into collaborators outside the repository (the gadget runtime, the
  Kubernetes client) are inputs of the embedded function: either their outcome
  or the function that produces it;
* a Go `map[string]V` is the function from keys to the value stored, if any;
* a handler is run on an arbitrary implementation of the `GadgetManager`
  interface, a record of state-passing methods, and yields, next to its Go
  results, the list of the manager calls it made.
-/

set_option autoImplicit false

namespace InspektorGadget

/-! ## Go values -/

/-- A Go string: an arbitrary sequence of bytes. -/
abbrev GoString := List UInt8

/-- The bytes denoted by a Go string literal (Go source text is UTF-8). -/
def lit (s : String) : GoString := s.toUTF8.data.toList

/-- A Go `error` value, as built by `fmt.Errorf`: `msg` is an error carrying only
a message, `wrap pre cause` is `fmt.Errorf(pre + "%w", cause)`. -/
inductive GoError where
  | msg (text : GoString)
  | wrap (pre : GoString) (cause : GoError)
  deriving DecidableEq

/-- Go `fmt.Sprintf(pre + "%s" + post, arg)` for a `string` operand: the verb is
replaced by the operand's bytes, unchanged. -/
def sprintfS (pre post arg : GoString) : GoString := pre ++ arg ++ post

/-! ## Result truncation (`gadgetmanager.go`, lines 25 and 125-130) -/

/-- Go `const maxResultLen = 64 * 1024`. -/
def maxResultLen : Nat := 64 * 1024

/-- Go `truncateResults`: wraps the payload in `<results>` tags, cutting it to
`maxResultLen` bytes (plus an ellipsis) behind a truncation marker when it is
longer. -/
def truncateResults (results : GoString) : GoString :=
  if results.length > maxResultLen then
    sprintfS (lit "\n<isTruncated>true</isTruncated>\n<results>") (lit "</results>\n")
      (results.take maxResultLen ++ lit "…")
  else
    sprintfS (lit "\n<results>") (lit "</results>\n") results

/-! ## Instance listing (`gadgetmanager.go`, lines 55-60 and 227-261) -/

/-- The fields of the runtime's `api.GadgetInstance` that `ListGadgets` reads. -/
structure RuntimeInstance where
  Id : GoString
  Tags : List GoString
  TimeCreated : Int
  deriving DecidableEq

/-- Go `type GadgetInstance struct`. -/
structure GadgetInstance where
  ID : GoString
  Tags : List GoString
  StartedAt : GoString
  deriving DecidableEq

/-- The `&GadgetInstance{...}` literal both branches of `ListGadgets` append.
`formatTime t` stands for `time.Unix(t, 0).String()`, which depends on the
process's local time zone. -/
def newGadgetInstance (formatTime : Int → GoString) (inst : RuntimeInstance) :
    GadgetInstance :=
  { ID := inst.Id, StartedAt := formatTime inst.TimeCreated, Tags := inst.Tags }

/-- The inner loop of `ListGadgets`: `hasAllTags` starts `true` and the loop
leaves with `false` at the first requested tag that `slices.Contains` does not
find among the instance's tags. -/
def hasAllTags (instanceTags : List GoString) : List GoString → Bool
  | [] => true
  | tag :: rest =>
    if !instanceTags.contains tag then false else hasAllTags instanceTags rest

/-- One iteration of the outer loop of `ListGadgets`, on the runtime instance
`inst` (the loop variable `instance` of the source). -/
def listGadgetsStep (formatTime : Int → GoString) (tags : List GoString)
    (filteredInstances : List GadgetInstance) (inst : RuntimeInstance) :
    List GadgetInstance :=
  if tags.length = 0 then
    filteredInstances ++ [newGadgetInstance formatTime inst]
  else if hasAllTags inst.Tags tags then
    filteredInstances ++ [newGadgetInstance formatTime inst]
  else
    filteredInstances

/-- Go `(*manager).ListGadgets`. `getGadgetInstances` is the outcome of the
runtime's `GetGadgetInstances` call; a nil slice is the empty list. -/
def ListGadgets (formatTime : Int → GoString)
    (getGadgetInstances : Except GoError (List RuntimeInstance)) (tags : List GoString) :
    List GadgetInstance × Option GoError :=
  match getGadgetInstances with
  | .error err => ([], some (.wrap (lit "listing gadgets: ") err))
  | .ok instances => (instances.foldl (listGadgetsStep formatTime tags) [], none)

/-! ## Deployment oracle (`gadgetmanager.go`, lines 263-295) -/

/-- The field of a Kubernetes `corev1.Pod` that `IsDeployed` reads, with the pod's
name to tell pods of one namespace apart. -/
structure Pod where
  Name : GoString
  Namespace : GoString
  deriving DecidableEq

/-- Go `fmt` rendering of a `[]string` under `%v`: the elements separated by one
space, between square brackets. -/
def fmtStringsV (xs : List GoString) : GoString :=
  lit "[" ++ (xs.intersperse (lit " ")).flatten ++ lit "]"

/-- The `for _, pod := range pods.Items` loop of `IsDeployed`, run from a given
value of the slice `namespaces`: a pod's namespace is appended unless
`slices.Contains` finds it there already. -/
def collectNamespacesFrom (namespaces : List GoString) (pods : List Pod) : List GoString :=
  pods.foldl
    (fun namespaces pod =>
      if !namespaces.contains pod.Namespace then namespaces ++ [pod.Namespace] else namespaces)
    namespaces

/-- The namespaces `IsDeployed` collects: the loop run from the nil slice of
`var namespaces []string`. -/
def collectNamespaces (pods : List Pod) : List GoString :=
  collectNamespacesFrom [] pods

/-- Go `(*manager).IsDeployed`. The three collaborator calls are inputs:
`toRESTConfig` is the outcome of `KubernetesFlags.ToRESTConfig()`, `newForConfig`
is `kubernetes.NewForConfig`, and `listPods client namespace labelSelector` is
`client.CoreV1().Pods(namespace).List(ctx, ListOptions{LabelSelector})`, giving
`pods.Items`. The result is `none` when the Go code panics (index out of range at
`namespaces[0]`); otherwise it is the returned triple. The two messages printed
to standard output are not part of the returned value and are left out. -/
def IsDeployed {Config Client : Type} (toRESTConfig : Except GoError Config)
    (newForConfig : Config → Except GoError Client)
    (listPods : Client → GoString → GoString → Except GoError (List Pod)) :
    Option (Bool × GoString × Option GoError) :=
  match toRESTConfig with
  | .error err => some (false, lit "", some (.wrap (lit "creating RESTConfig: ") err))
  | .ok restConfig =>
    match newForConfig restConfig with
    | .error err => some (false, lit "", some (.wrap (lit "setting up trace client: ") err))
    | .ok client =>
      match listPods client (lit "") (lit "k8s-app=gadget") with
      | .error err => some (false, lit "", some (.wrap (lit "getting pods: ") err))
      | .ok pods =>
        if pods.length = 0 then
          some (false, lit "", none)
        else
          let namespaces := collectNamespaces pods
          if namespaces.length > 1 then
            some (false, lit "",
              some (.msg (lit "multiple namespaces found for Inspektor Gadget pods: " ++
                fmtStringsV namespaces)))
          else
            match namespaces with
            | [] => none
            | ns :: _ => some (true, ns, none)

/-! ## Request values (`handlers.go`) -/

/-- A Go `float64`: a finite value, given as the rational number it denotes (every
finite `float64` is one), an infinity or a NaN. -/
inductive Float64 where
  | finite (q : ℚ)
  | posInf
  | negInf
  | nan
  deriving DecidableEq

/-- Go `f > 0` on `float64`. -/
def Float64.gtZero : Float64 → Bool
  | .finite q => decide (0 < q)
  | .posInf => true
  | .negInf => false
  | .nan => false

/-- Go `f == 0` on `float64`. -/
def Float64.eqZero : Float64 → Bool
  | .finite q => decide (q = 0)
  | .posInf => false
  | .negInf => false
  | .nan => false

/-- The value of a 64-bit two's-complement integer with the bits of `n`. -/
def wrapInt64 (n : Int) : Int := (n + 2 ^ 63) % 2 ^ 64 - 2 ^ 63

/-- Go conversion of a non-constant `float64` to a 64-bit integer type
(`time.Duration(f)`, and `int(f)` on a 64-bit platform): the fraction is discarded
(truncation toward zero); when the result type cannot represent the value, the
conversion succeeds with an implementation-dependent value, here the 64-bit
integer given by `unrepresentable`. -/
def float64ToInt64 (unrepresentable : Float64 → Int) : Float64 → Int
  | .finite q =>
    if -2 ^ 63 ≤ Int.tdiv q.num q.den ∧ Int.tdiv q.num q.den < 2 ^ 63 then
      Int.tdiv q.num q.den
    else
      wrapInt64 (unrepresentable (.finite q))
  | .posInf => wrapInt64 (unrepresentable .posInf)
  | .negInf => wrapInt64 (unrepresentable .negInf)
  | .nan => wrapInt64 (unrepresentable .nan)

/-- Go `time.Second`, in nanoseconds (the unit of `time.Duration`). -/
def timeSecond : Int := 1000000000

/-- A Go `interface{}` value found in a request bag: a `string`, a `float64`, a
`time.Duration` (nanoseconds), or a value of any other dynamic type (`nil`, `bool`,
`int`, a slice, ...), of which only the fact that it is neither matters. -/
inductive Value where
  | str (s : GoString)
  | float64 (f : Float64)
  | duration (d : Int)
  | other (tag : Nat)
  deriving DecidableEq

/-- A Go `map[string]V`: the value stored under each key, `none` for an absent
key. -/
abbrev GoMap (V : Type) := GoString → Option V

/-- Go `make(map[string]V)`. -/
def mapEmpty {V : Type} : GoMap V := fun _ => none

/-- Go `m[key] = value`. -/
def mapSet {V : Type} (m : GoMap V) (key : GoString) (value : V) : GoMap V :=
  fun k => if k = key then some value else m k

/-- The request bag of a handler, Go `map[string]interface{}`. -/
abbrev Params := GoMap Value

/-- The runtime parameter map, Go `map[string]string`. -/
abbrev GadgetParams := GoMap GoString

/-- Go `v, ok := params[key].(string)` on the looked-up entry: the string and
`true`, or the zero value `""` and `false` when the key is absent or holds a value
of another type. -/
def assertString : Option Value → GoString × Bool
  | some (.str s) => (s, true)
  | _ => (lit "", false)

/-- Go `v, ok := params[key].(float64)` on the looked-up entry: the number and
`true`, or the zero value `0` and `false`. -/
def assertFloat64 : Option Value → Float64 × Bool
  | some (.float64 f) => (f, true)
  | _ => (.finite 0, false)

/-- Go `strings.Join(elems, sep)`. -/
def stringsJoin (elems : List GoString) (sep : GoString) : GoString :=
  (elems.intersperse sep).flatten

/-- Go `fmt.Sprintf("%d", n)` for an integer operand: its decimal rendering, with
a leading `-` when negative. -/
def fmtD (n : Int) : GoString := lit (toString n)

/-! ## Handler constants (`handlers.go`, lines 18-45; `registry.go`, lines 9-18) -/

def dnsGadgetImage : GoString := lit "ghcr.io/inspektor-gadget/gadget/trace_dns:latest"
def tcpGadgetImage : GoString := lit "ghcr.io/inspektor-gadget/gadget/trace_tcp:latest"
def openGadgetImage : GoString := lit "ghcr.io/inspektor-gadget/gadget/trace_open:latest"
def execGadgetImage : GoString := lit "ghcr.io/inspektor-gadget/gadget/trace_exec:latest"
def signalGadgetImage : GoString := lit "ghcr.io/inspektor-gadget/gadget/trace_signal:latest"
def traceloopGadgetImage : GoString := lit "ghcr.io/inspektor-gadget/gadget/traceloop:latest"
def topfileGadgetImage : GoString := lit "ghcr.io/inspektor-gadget/gadget/top_file:latest"
def topTcpGadgetImage : GoString := lit "ghcr.io/inspektor-gadget/gadget/top_tcp:latest"

def ParamAllNamespaces : GoString := lit "operator.KubeManager.all-namespaces"
def ParamNamespace : GoString := lit "operator.KubeManager.namespace"
def ParamPod : GoString := lit "operator.KubeManager.podname"
def ParamContainer : GoString := lit "operator.KubeManager.containername"
def ParamSelector : GoString := lit "operator.KubeManager.selector"
def ParamSort : GoString := lit "operator.sort.sort"
def ParamLimiter : GoString := lit "operator.limiter.max-entries"
def ParamFetchInterval : GoString := lit "operator.oci.ebpf.map-fetch-interval"
def ParamFilter : GoString := lit "operator.filter.filter"
def ParamTraceloopSyscall : GoString := lit "operator.oci.wasm.syscall-filters"

def observeDNSToolName : GoString := lit "inspektor_gadget_observe_dns"
def observeTCPToolName : GoString := lit "inspektor_gadget_observe_tcp"
def observeFileOpenToolName : GoString := lit "inspektor_gadget_observe_file_open"
def observeProcessExecutionToolName : GoString :=
  lit "inspektor_gadget_observe_process_execution"
def observeSignalToolName : GoString := lit "inspektor_gadget_observe_signal"
def observeSystemCallsToolName : GoString := lit "inspektor_gadget_observe_system_calls"
def topFileToolName : GoString := lit "inspektor_gadget_top_file"
def topTCPToolName : GoString := lit "inspektor_gadget_top_tcp"

/-- Go `var ErrNotDeployed = fmt.Errorf(...)`. -/
def ErrNotDeployed : GoError :=
  .msg (lit ("inspektor gadget is not deployed, please deploy it first using " ++
    "'inspektor_gadget_deploy' tool"))

/-! ## Parameter translators (`handlers.go`, lines 47-168) -/

/-- Go `type customParamFunc func(params map[string]interface{}, gadgetParams
map[string]string)`. Both maps are passed by reference, so the function gives
back the two maps as it leaves them. -/
abbrev customParamFunc := Params → GadgetParams → Params × GadgetParams

/-- The `customParams` closure of `InspektorGadgetObserveDNSHandler`. -/
def observeDNSCustomParams : customParamFunc := fun params gadgetParams =>
  let filter : List GoString := []
  let name := assertString (params (lit "name"))
  let filter :=
    if name.2 && name.1 != lit "" then filter ++ [sprintfS (lit "name~") (lit "") name.1]
    else filter
  let nameserver := assertString (params (lit "nameserver"))
  let filter :=
    if nameserver.2 && nameserver.1 != lit "" then
      filter ++ [sprintfS (lit "nameserver.addr==") (lit "") nameserver.1]
    else filter
  let minimumLatency := assertString (params (lit "minimum_latency"))
  let filter :=
    if minimumLatency.2 && minimumLatency.1 != lit "" then
      filter ++ [sprintfS (lit "latency_ns_raw>=") (lit "") minimumLatency.1]
    else filter
  let responseCode := assertString (params (lit "response_code"))
  let filter :=
    if responseCode.2 && responseCode.1 != lit "" then
      filter ++ [sprintfS (lit "rcode==") (lit "") responseCode.1]
    else filter
  if filter.length > 0 then
    (params, mapSet gadgetParams ParamFilter (stringsJoin filter (lit ",")))
  else
    (params, gadgetParams)

/-- The `customParams` closure of `InspektorGadgetObserveTCPHandler`. -/
def observeTCPCustomParams : customParamFunc := fun params gadgetParams =>
  let filter : List GoString := []
  let srcPort := assertString (params (lit "source_port"))
  let filter :=
    if srcPort.2 && srcPort.1 != lit "" then
      filter ++ [sprintfS (lit "src.port==") (lit "") srcPort.1]
    else filter
  let dstPort := assertString (params (lit "destination_port"))
  let filter :=
    if dstPort.2 && dstPort.1 != lit "" then
      filter ++ [sprintfS (lit "dst.port==") (lit "") dstPort.1]
    else filter
  let typ := assertString (params (lit "event_type"))
  let filter :=
    if typ.2 && typ.1 != lit "" then filter ++ [sprintfS (lit "type==") (lit "") typ.1]
    else filter
  if filter.length > 0 then
    (params, mapSet gadgetParams ParamFilter (stringsJoin filter (lit ",")))
  else
    (params, gadgetParams)

/-- The `customParams` closure of `InspektorGadgetObserveFileOpenHandler`. -/
def observeFileOpenCustomParams : customParamFunc := fun params gadgetParams =>
  let path := assertString (params (lit "path"))
  if path.2 && path.1 != lit "" then
    (params, mapSet gadgetParams ParamFilter (sprintfS (lit "fname~") (lit "") path.1))
  else
    (params, gadgetParams)

/-- The `customParam` closure of `InspektorGadgetObserveSignalHandler`. -/
def observeSignalCustomParams : customParamFunc := fun params gadgetParams =>
  let signalFilter := assertString (params (lit "signal"))
  if signalFilter.2 && signalFilter.1 != lit "" then
    (params, mapSet gadgetParams ParamFilter (sprintfS (lit "sig==") (lit "") signalFilter.1))
  else
    (params, gadgetParams)

/-- The `customParams` closure of `InspektorGadgetObserveSystemCallHandler`. -/
def observeSystemCallCustomParams : customParamFunc := fun params gadgetParams =>
  let gadgetParams := mapSet gadgetParams ParamTraceloopSyscall (lit "")
  let syscallFilter := assertString (params (lit "syscall"))
  if syscallFilter.2 && syscallFilter.1 != lit "" then
    (params, mapSet gadgetParams ParamTraceloopSyscall syscallFilter.1)
  else
    (params, gadgetParams)

/-- The `customParams` closures of `InspektorGadgetTopFileHandler` and
`InspektorGadgetTopTCPHandler`, which differ only in the sort expression
`sortExpression` they store under `ParamSort`. `unrepresentable` is the
platform's result for `float64` conversions that do not fit (see
`float64ToInt64`). -/
def topCustomParams (sortExpression : GoString) (unrepresentable : Float64 → Int) :
    customParamFunc := fun params gadgetParams =>
  let duration := (assertFloat64 (params (lit "duration"))).1
  if duration.gtZero then
    let params := mapSet params ParamFetchInterval
      (Value.duration
        (Int.tdiv (wrapInt64 (float64ToInt64 unrepresentable duration * timeSecond)) 2))
    let gadgetParams := mapSet gadgetParams ParamSort sortExpression
    let maxEntries := (assertFloat64 (params (lit "max_entries"))).1
    if maxEntries.gtZero then
      (params, mapSet gadgetParams ParamLimiter (fmtD (float64ToInt64 unrepresentable maxEntries)))
    else
      (params, mapSet gadgetParams ParamLimiter (lit "10"))
  else
    (params, gadgetParams)

/-- The `customParams` closure of `InspektorGadgetTopFileHandler`. -/
def topFileCustomParams (unrepresentable : Float64 → Int) : customParamFunc :=
  topCustomParams (lit "-rbytes_raw,-wbytes_raw") unrepresentable

/-- The `customParams` closure of `InspektorGadgetTopTCPHandler`. -/
def topTCPCustomParams (unrepresentable : Float64 → Int) : customParamFunc :=
  topCustomParams (lit "-sent_raw,-received_raw") unrepresentable

/-! ## Tool handlers (`handlers.go`, lines 170-294) -/

/-- A call a handler makes on the `GadgetManager` it was given, with its
arguments (the context apart). -/
inductive Call where
  | IsDeployed
  | StartGadget (image : GoString) (params : GadgetParams) (tags : List GoString)
  | RunGadget (image : GoString) (params : GadgetParams) (duration : Int)
  | StopGadget (id : GoString)
  | GetResults (id : GoString)
  | ListGadgets (tags : List GoString)

/-- The methods of the Go interface `GadgetManager` that the handlers call, over
an arbitrary implementation with state `σ`: each method returns its Go results and
the state it leaves. Durations are `time.Duration` values, in nanoseconds. -/
structure GadgetManager (σ : Type) where
  RunGadget : GoString → GadgetParams → Int → σ → (GoString × Option GoError) × σ
  StartGadget : GoString → GadgetParams → List GoString → σ → (GoString × Option GoError) × σ
  StopGadget : GoString → σ → Option GoError × σ
  GetResults : GoString → σ → (GoString × Option GoError) × σ
  ListGadgets : List GoString → σ → (List GadgetInstance × Option GoError) × σ
  IsDeployed : σ → (Bool × GoString × Option GoError) × σ

/-- What one invocation of a handler does: the `(string, error)` it returns, the
manager calls it made, in order, the manager state it leaves, and the request bag
as it leaves it. -/
structure HandlerRun (σ : Type) where
  payload : GoString
  err : Option GoError
  calls : List Call
  state : σ
  params : Params

/-- The runtime parameter maps found among the arguments of a list of calls. -/
def handedGadgetParams : List Call → List GadgetParams
  | [] => []
  | .StartGadget _ params _ :: rest => params :: handedGadgetParams rest
  | .RunGadget _ params _ :: rest => params :: handedGadgetParams rest
  | _ :: rest => handedGadgetParams rest

/-- Lines 189-204 of `inspektorGadgetTraceHandler`: the Kubernetes scoping
parameters. -/
def kubernetesParams (params : Params) : GadgetParams :=
  let gadgetParams : GadgetParams := mapEmpty
  let namespace_ := assertString (params (lit "namespace"))
  let gadgetParams :=
    if namespace_.2 && namespace_.1 != lit "" then mapSet gadgetParams ParamNamespace namespace_.1
    else mapSet gadgetParams ParamAllNamespaces (lit "true")
  let pod := assertString (params (lit "pod"))
  let gadgetParams :=
    if pod.2 && pod.1 != lit "" then mapSet gadgetParams ParamPod pod.1 else gadgetParams
  let container := assertString (params (lit "container"))
  let gadgetParams :=
    if container.2 && container.1 != lit "" then mapSet gadgetParams ParamContainer container.1
    else gadgetParams
  let selector := assertString (params (lit "selector"))
  let gadgetParams :=
    if selector.2 && selector.1 != lit "" then mapSet gadgetParams ParamSelector selector.1
    else gadgetParams
  gadgetParams

/-- Lines 189-209 of `inspektorGadgetTraceHandler`: the scoping parameters, then
the custom translator when there is one (`none` is Go's `nil` function). -/
def buildGadgetParams (customParams : Option customParamFunc) (params : Params) :
    Params × GadgetParams :=
  match customParams with
  | some custom => custom params (kubernetesParams params)
  | none => (params, kubernetesParams params)

/-- Go `inspektorGadgetTraceHandler`, applied to a request bag and run from the
manager state `s`. -/
def inspektorGadgetTraceHandler {σ : Type} (unrepresentable : Float64 → Int)
    (mgr : GadgetManager σ) (gadgetImage toolName : GoString)
    (customParams : Option customParamFunc) (params : Params) (s : σ) : HandlerRun σ :=
  let asserted := assertFloat64 (params (lit "duration"))
  let duration := if !asserted.2 then Float64.finite 10 else asserted.1
  let deployment := mgr.IsDeployed s
  match deployment.1.2.2 with
  | some err =>
    { payload := lit "",
      err := some (.wrap (lit "checking Inspektor Gadget deployment: ") err),
      calls := [.IsDeployed], state := deployment.2, params := params }
  | none =>
    if !deployment.1.1 then
      { payload := lit "", err := some ErrNotDeployed,
        calls := [.IsDeployed], state := deployment.2, params := params }
    else
      let built := buildGadgetParams customParams params
      if duration.eqZero then
        let tags := [lit "tool-name=" ++ toolName]
        let started := mgr.StartGadget gadgetImage built.2 tags deployment.2
        match started.1.2 with
        | some err =>
          { payload := lit "", err := some (.wrap (lit "starting gadget: ") err),
            calls := [.IsDeployed, .StartGadget gadgetImage built.2 tags],
            state := started.2, params := built.1 }
        | none =>
          { payload := sprintfS (lit "Gadget started with ID: ") (lit "") started.1.1,
            err := none,
            calls := [.IsDeployed, .StartGadget gadgetImage built.2 tags],
            state := started.2, params := built.1 }
      else
        let timeout := wrapInt64 (float64ToInt64 unrepresentable duration * timeSecond)
        let ran := mgr.RunGadget gadgetImage built.2 timeout deployment.2
        match ran.1.2 with
        | some err =>
          { payload := lit "", err := some (.wrap (lit "running gadget: ") err),
            calls := [.IsDeployed, .RunGadget gadgetImage built.2 timeout],
            state := ran.2, params := built.1 }
        | none =>
          { payload := ran.1.1, err := none,
            calls := [.IsDeployed, .RunGadget gadgetImage built.2 timeout],
            state := ran.2, params := built.1 }

/-- Go `InspektorGadgetObserveDNSHandler`. -/
def InspektorGadgetObserveDNSHandler {σ : Type} (unrepresentable : Float64 → Int)
    (mgr : GadgetManager σ) : Params → σ → HandlerRun σ :=
  inspektorGadgetTraceHandler unrepresentable mgr dnsGadgetImage observeDNSToolName
    (some observeDNSCustomParams)

/-- Go `InspektorGadgetObserveTCPHandler`. -/
def InspektorGadgetObserveTCPHandler {σ : Type} (unrepresentable : Float64 → Int)
    (mgr : GadgetManager σ) : Params → σ → HandlerRun σ :=
  inspektorGadgetTraceHandler unrepresentable mgr tcpGadgetImage observeTCPToolName
    (some observeTCPCustomParams)

/-- Go `InspektorGadgetObserveFileOpenHandler`. -/
def InspektorGadgetObserveFileOpenHandler {σ : Type} (unrepresentable : Float64 → Int)
    (mgr : GadgetManager σ) : Params → σ → HandlerRun σ :=
  inspektorGadgetTraceHandler unrepresentable mgr openGadgetImage observeFileOpenToolName
    (some observeFileOpenCustomParams)

/-- Go `InspektorGadgetObserveProcessExecutionHandler`. -/
def InspektorGadgetObserveProcessExecutionHandler {σ : Type}
    (unrepresentable : Float64 → Int) (mgr : GadgetManager σ) : Params → σ → HandlerRun σ :=
  inspektorGadgetTraceHandler unrepresentable mgr execGadgetImage
    observeProcessExecutionToolName none

/-- Go `InspektorGadgetObserveSignalHandler`. -/
def InspektorGadgetObserveSignalHandler {σ : Type} (unrepresentable : Float64 → Int)
    (mgr : GadgetManager σ) : Params → σ → HandlerRun σ :=
  inspektorGadgetTraceHandler unrepresentable mgr signalGadgetImage observeSignalToolName
    (some observeSignalCustomParams)

/-- Go `InspektorGadgetObserveSystemCallHandler`. -/
def InspektorGadgetObserveSystemCallHandler {σ : Type} (unrepresentable : Float64 → Int)
    (mgr : GadgetManager σ) : Params → σ → HandlerRun σ :=
  inspektorGadgetTraceHandler unrepresentable mgr traceloopGadgetImage
    observeSystemCallsToolName (some observeSystemCallCustomParams)

/-- Go `InspektorGadgetTopFileHandler`. -/
def InspektorGadgetTopFileHandler {σ : Type} (unrepresentable : Float64 → Int)
    (mgr : GadgetManager σ) : Params → σ → HandlerRun σ :=
  inspektorGadgetTraceHandler unrepresentable mgr topfileGadgetImage topFileToolName
    (some (topFileCustomParams unrepresentable))

/-- Go `InspektorGadgetTopTCPHandler`. -/
def InspektorGadgetTopTCPHandler {σ : Type} (unrepresentable : Float64 → Int)
    (mgr : GadgetManager σ) : Params → σ → HandlerRun σ :=
  inspektorGadgetTraceHandler unrepresentable mgr topTcpGadgetImage topTCPToolName
    (some (topTCPCustomParams unrepresentable))

/-- The eight probe kinds, one per observation handler. -/
inductive ProbeKind where
  | dns
  | tcp
  | fileOpen
  | processExecution
  | signal
  | systemCall
  | topFile
  | topTCP
  deriving DecidableEq

/-- The gadget image the kind's handler passes to `inspektorGadgetTraceHandler`. -/
def ProbeKind.image : ProbeKind → GoString
  | .dns => dnsGadgetImage
  | .tcp => tcpGadgetImage
  | .fileOpen => openGadgetImage
  | .processExecution => execGadgetImage
  | .signal => signalGadgetImage
  | .systemCall => traceloopGadgetImage
  | .topFile => topfileGadgetImage
  | .topTCP => topTcpGadgetImage

/-- The registered tool name the kind's handler passes to
`inspektorGadgetTraceHandler`. -/
def ProbeKind.toolName : ProbeKind → GoString
  | .dns => observeDNSToolName
  | .tcp => observeTCPToolName
  | .fileOpen => observeFileOpenToolName
  | .processExecution => observeProcessExecutionToolName
  | .signal => observeSignalToolName
  | .systemCall => observeSystemCallsToolName
  | .topFile => topFileToolName
  | .topTCP => topTCPToolName

/-- The translator the kind's handler passes to `inspektorGadgetTraceHandler`. -/
def ProbeKind.customParams (unrepresentable : Float64 → Int) :
    ProbeKind → Option customParamFunc
  | .dns => some observeDNSCustomParams
  | .tcp => some observeTCPCustomParams
  | .fileOpen => some observeFileOpenCustomParams
  | .processExecution => none
  | .signal => some observeSignalCustomParams
  | .systemCall => some observeSystemCallCustomParams
  | .topFile => some (topFileCustomParams unrepresentable)
  | .topTCP => some (topTCPCustomParams unrepresentable)

/-- The observation handler of a probe kind. -/
def ProbeKind.handler {σ : Type} (unrepresentable : Float64 → Int) (mgr : GadgetManager σ) :
    ProbeKind → Params → σ → HandlerRun σ
  | .dns => InspektorGadgetObserveDNSHandler unrepresentable mgr
  | .tcp => InspektorGadgetObserveTCPHandler unrepresentable mgr
  | .fileOpen => InspektorGadgetObserveFileOpenHandler unrepresentable mgr
  | .processExecution => InspektorGadgetObserveProcessExecutionHandler unrepresentable mgr
  | .signal => InspektorGadgetObserveSignalHandler unrepresentable mgr
  | .systemCall => InspektorGadgetObserveSystemCallHandler unrepresentable mgr
  | .topFile => InspektorGadgetTopFileHandler unrepresentable mgr
  | .topTCP => InspektorGadgetTopTCPHandler unrepresentable mgr

/-- Go `inspektorGadgetLifecycleHandler`. `operation` is run on the manager, the
id and the manager state, and gives back its Go results, the calls it made and the
state it leaves. -/
def inspektorGadgetLifecycleHandler {σ : Type} (mgr : GadgetManager σ)
    (operation : GadgetManager σ → GoString → σ → (GoString × Option GoError) × List Call × σ)
    (params : Params) (s : σ) : HandlerRun σ :=
  let id := assertString (params (lit "id"))
  if !id.2 || id.1 == lit "" then
    { payload := lit "",
      err := some (.msg (lit "invalid or missing 'id' parameter, must be a non-empty string")),
      calls := [], state := s, params := params }
  else
    let deployment := mgr.IsDeployed s
    match deployment.1.2.2 with
    | some err =>
      { payload := lit "",
        err := some (.wrap (lit "checking Inspektor Gadget deployment: ") err),
        calls := [.IsDeployed], state := deployment.2, params := params }
    | none =>
      if !deployment.1.1 then
        { payload := lit "", err := some ErrNotDeployed,
          calls := [.IsDeployed], state := deployment.2, params := params }
      else
        let done := operation mgr id.1 deployment.2
        { payload := done.1.1, err := done.1.2,
          calls := .IsDeployed :: done.2.1, state := done.2.2, params := params }

/-- The operation `InspektorGadgetStopGadgetHandler` passes to the lifecycle
handler. -/
def stopGadgetOperation {σ : Type} (mgr : GadgetManager σ) (id : GoString) (s : σ) :
    (GoString × Option GoError) × List Call × σ :=
  let stopped := mgr.StopGadget id s
  match stopped.1 with
  | some err => ((lit "", some (.wrap (lit "stopping gadget: ") err)), [.StopGadget id], stopped.2)
  | none =>
    ((sprintfS (lit "Gadget with ID ") (lit " stopped successfully") id, none),
      [.StopGadget id], stopped.2)

/-- Go `InspektorGadgetStopGadgetHandler`. -/
def InspektorGadgetStopGadgetHandler {σ : Type} (mgr : GadgetManager σ) :
    Params → σ → HandlerRun σ :=
  inspektorGadgetLifecycleHandler mgr stopGadgetOperation

/-- The operation `InspektorGadgetGetGadgetResultsHandler` passes to the lifecycle
handler. -/
def getGadgetResultsOperation {σ : Type} (mgr : GadgetManager σ) (id : GoString) (s : σ) :
    (GoString × Option GoError) × List Call × σ :=
  let got := mgr.GetResults id s
  match got.1.2 with
  | some err =>
    ((lit "", some (.wrap (lit "getting gadget results: ") err)), [.GetResults id], got.2)
  | none => ((got.1.1, none), [.GetResults id], got.2)

/-- Go `InspektorGadgetGetGadgetResultsHandler`. -/
def InspektorGadgetGetGadgetResultsHandler {σ : Type} (mgr : GadgetManager σ) :
    Params → σ → HandlerRun σ :=
  inspektorGadgetLifecycleHandler mgr getGadgetResultsOperation

/-- Go `InspektorGadgetListGadgetsHandler`. `jsonMarshal` stands for
`json.Marshal` on the listed instances; the `nil` tag slice is the empty list. -/
def InspektorGadgetListGadgetsHandler {σ : Type}
    (jsonMarshal : List GadgetInstance → GoString × Option GoError) (mgr : GadgetManager σ)
    (params : Params) (s : σ) : HandlerRun σ :=
  let listed := mgr.ListGadgets [] s
  match listed.1.2 with
  | some err =>
    { payload := lit "", err := some (.wrap (lit "listing gadgets: ") err),
      calls := [.ListGadgets []], state := listed.2, params := params }
  | none =>
    let marshaled := jsonMarshal listed.1.1
    match marshaled.2 with
    | some err =>
      { payload := lit "", err := some (.wrap (lit "marshaling gadgets: ") err),
        calls := [.ListGadgets []], state := listed.2, params := params }
    | none =>
      { payload := marshaled.1, err := none,
        calls := [.ListGadgets []], state := listed.2, params := params }

/-! ## Managers of the handler tests (`handlers_test.go`, lines 12-78) -/

/-- Go `MockGadgetManager` of the handler tests with none of its functions
overridden: every method answers its fixed default. -/
def mockGadgetManager : GadgetManager Unit where
  RunGadget := fun _ _ _ s => ((lit "test-gadget-results", none), s)
  StartGadget := fun _ _ _ s => ((lit "test-gadget-id", none), s)
  StopGadget := fun _ s => (none, s)
  GetResults := fun _ s => ((lit "test-results", none), s)
  ListGadgets := fun _ s =>
    (([{ ID := lit "test-id", Tags := [lit "test-tag"],
         StartedAt := lit "2023-01-01T00:00:00Z" }], none), s)
  IsDeployed := fun s => ((true, lit "v1.0.0", none), s)

/-- Go `MockGadgetManager` with `IsDeployedFunc` answering `false, "", nil`, as in
the "gadget not deployed" tests. -/
def mockNotDeployedManager : GadgetManager Unit where
  RunGadget := mockGadgetManager.RunGadget
  StartGadget := mockGadgetManager.StartGadget
  StopGadget := mockGadgetManager.StopGadget
  GetResults := mockGadgetManager.GetResults
  ListGadgets := mockGadgetManager.ListGadgets
  IsDeployed := fun s => ((false, lit "", none), s)

/-- A request bag given by its entries; of two entries with one key the first
counts. -/
def paramsOf (entries : List (GoString × Value)) : Params :=
  fun key => (entries.find? (fun entry => entry.1 == key)).map Prod.snd

/-! ## Platform conversions of unrepresentable `float64` values -/

/-- The `unrepresentable` of `float64ToInt64` on amd64: `CVTTSD2SQ` gives the
"integer indefinite" value `-2^63` for every operand it cannot convert. -/
def amd64Unrepresentable : Float64 → Int := fun _ => -2 ^ 63

/-- The `unrepresentable` of `float64ToInt64` on arm64: `FCVTZS` saturates, and
converts a NaN to 0. -/
def arm64Unrepresentable : Float64 → Int
  | .finite q => if 0 < q then 2 ^ 63 - 1 else -2 ^ 63
  | .posInf => 2 ^ 63 - 1
  | .negInf => -2 ^ 63
  | .nan => 0

/-! ## Starting and running a gadget (`gadgetmanager.go`, lines 104-123, 132-192) -/

/-- Go `encoding/hex`: `const hextable = "0123456789abcdef"`. -/
def hextable : GoString := lit "0123456789abcdef"

/-- Go `hex.EncodeToString`: each byte `v` gives `hextable[v>>4]`, then
`hextable[v&0x0f]`. -/
def hexEncodeToString (src : List UInt8) : GoString :=
  src.flatMap (fun v => [hextable.getD (v.toNat / 16) 0, hextable.getD (v.toNat % 16) 0])

/-- The names of the runtime parameters `grpcruntime.ParamID`,
`grpcruntime.ParamDetach` and `grpcruntime.ParamTags`, constants of the gadget
runtime's package. -/
structure GrpcParamKeys where
  ParamID : GoString
  ParamDetach : GoString
  ParamTags : GoString

/-- The arguments of a `runtime.RunGadget` call made by `StartGadget`: the image
of the gadget context, the values set on the runtime parameters `p`, in the order
they were set, and the gadget parameter map. -/
structure RuntimeRun where
  image : GoString
  runtimeParams : List (GoString × GoString)
  gadgetParams : GadgetParams

/-- Go `(*manager).StartGadget`. `randRead` is the outcome of `rand.Read(newID)`,
the bytes of `newID` or an error; `pSet key value` is the outcome of
`p.Set(key, value)`; `runGadget` is the outcome of `g.runtime.RunGadget`. The
result is the returned `(string, error)` and the runtime runs issued. -/
def StartGadget (keys : GrpcParamKeys) (randRead : Except GoError (List UInt8))
    (pSet : GoString → GoString → Option GoError) (runGadget : RuntimeRun → Option GoError)
    (image : GoString) (params : GadgetParams) (tags : List GoString) :
    (GoString × Option GoError) × List RuntimeRun :=
  match randRead with
  | .error err => ((lit "", some (.wrap (lit "generating new gadget ID: ") err)), [])
  | .ok newID =>
    let idString := hexEncodeToString newID
    match pSet keys.ParamID idString with
    | some err => ((lit "", some (.wrap (lit "setting gadget ID: ") err)), [])
    | none =>
      match pSet keys.ParamDetach (lit "true") with
      | some err => ((lit "", some (.wrap (lit "setting detach parameter: ") err)), [])
      | none =>
        match pSet keys.ParamTags (stringsJoin tags (lit ",")) with
        | some err => ((lit "", some (.wrap (lit "setting gadget tags: ") err)), [])
        | none =>
          let run : RuntimeRun :=
            { image := image,
              runtimeParams :=
                [(keys.ParamID, idString), (keys.ParamDetach, lit "true"),
                  (keys.ParamTags, stringsJoin tags (lit ","))],
              gadgetParams := params }
          match runGadget run with
          | some err => ((lit "", some (.wrap (lit "running gadget: ") err)), [run])
          | none => ((idString, none), [run])

/-- A data source of the gadget context, as `outputDataOperator` uses it: its
name, its annotations and the outcome of subscribing to it. -/
structure DataSource where
  Name : GoString
  Annotations : GoMap GoString
  Subscribe : Option GoError

/-- The `OnInit` function of Go `outputDataOperator`, run from the data sources
subscribed so far: a data source annotated `cli.default-output-mode` = `none` is
skipped, the others are subscribed to, and the first failing subscription ends the
loop with its error. `quote` is the `%q` rendering of a name. The result is the
data sources subscribed to and the returned error. -/
def outputDataOperatorInit (quote : GoString → GoString) :
    List DataSource → List DataSource → List DataSource × Option GoError
  | subscribed, [] => (subscribed, none)
  | subscribed, d :: rest =>
    if d.Annotations (lit "cli.default-output-mode") = some (lit "none") then
      outputDataOperatorInit quote subscribed rest
    else
      match d.Subscribe with
      | some err =>
        (subscribed,
          some (.wrap (lit "subscribing to data source " ++ quote d.Name ++ lit ": ") err))
      | none => outputDataOperatorInit quote (subscribed ++ [d]) rest

/-- The callback `RunGadget` and `GetResults` give to `outputDataOperator`, on the
`strings.Builder` `results`: `results.Write(data); results.WriteByte('\n')`. -/
def writeRecord (results data : GoString) : GoString := results ++ data ++ [10]

/-- Go `(*manager).RunGadget`. The runtime is given by what it does during the
run: `emitted` lists the records it emits, in order, each with the name of its
data source and its JSON rendering (`jsonFormatter.Marshal(data)`), and `runErr` is
the error `g.runtime.RunGadget` returns. A record reaches the callback when its
data source was subscribed to. -/
def RunGadget (quote : GoString → GoString) (dataSources : List DataSource)
    (emitted : List (GoString × GoString)) (runErr : Option GoError) :
    GoString × Option GoError :=
  let subscribed := (outputDataOperatorInit quote [] dataSources).1
  let results := emitted.foldl
    (fun results record =>
      if subscribed.any (fun d => d.Name == record.1) then writeRecord results record.2
      else results)
    []
  match runErr with
  | some err => (lit "", some (.wrap (lit "running gadget: ") err))
  | none => (truncateResults results, none)

/-! ## The tool handlers as one family -/

/-- The eleven tool handlers of `handlers.go`: the eight observation handlers and
the three lifecycle handlers. -/
inductive Tool where
  | observe (kind : ProbeKind)
  | stop
  | getResults
  | list

/-- The handler of a tool. `jsonMarshal` is the `json.Marshal` of the list
handler. -/
def Tool.handler {σ : Type} (unrepresentable : Float64 → Int)
    (jsonMarshal : List GadgetInstance → GoString × Option GoError) (mgr : GadgetManager σ) :
    Tool → Params → σ → HandlerRun σ
  | .observe kind => kind.handler unrepresentable mgr
  | .stop => InspektorGadgetStopGadgetHandler mgr
  | .getResults => InspektorGadgetGetGadgetResultsHandler mgr
  | .list => InspektorGadgetListGadgetsHandler jsonMarshal mgr

/-- The methods of `GadgetManager` the handlers call. -/
inductive ManagerMethod where
  | IsDeployed
  | StartGadget
  | RunGadget
  | StopGadget
  | GetResults
  | ListGadgets
  deriving DecidableEq

/-- The method a call is a call of. -/
def Call.method : Call → ManagerMethod
  | .IsDeployed => .IsDeployed
  | .StartGadget _ _ _ => .StartGadget
  | .RunGadget _ _ _ => .RunGadget
  | .StopGadget _ => .StopGadget
  | .GetResults _ => .GetResults
  | .ListGadgets _ => .ListGadgets

/-- The error the manager returns for a call made in state `s` (`none` is `nil`),
and the state it leaves. -/
def Call.perform {σ : Type} (mgr : GadgetManager σ) : Call → σ → Option GoError × σ
  | .IsDeployed, s => ((mgr.IsDeployed s).1.2.2, (mgr.IsDeployed s).2)
  | .StartGadget image params tags, s =>
    ((mgr.StartGadget image params tags s).1.2, (mgr.StartGadget image params tags s).2)
  | .RunGadget image params duration, s =>
    ((mgr.RunGadget image params duration s).1.2, (mgr.RunGadget image params duration s).2)
  | .StopGadget id, s => ((mgr.StopGadget id s).1, (mgr.StopGadget id s).2)
  | .GetResults id, s => ((mgr.GetResults id s).1.2, (mgr.GetResults id s).2)
  | .ListGadgets tags, s => ((mgr.ListGadgets tags s).1.2, (mgr.ListGadgets tags s).2)

/-- The errors the manager returns for a sequence of calls made one after the
other from state `s`. -/
def returnedErrors {σ : Type} (mgr : GadgetManager σ) : List Call → σ → List GoError
  | [], _ => []
  | call :: rest, s =>
    match (call.perform mgr s).1 with
    | some err => err :: returnedErrors mgr rest (call.perform mgr s).2
    | none => returnedErrors mgr rest (call.perform mgr s).2

/-- Go `MockGadgetManager` with `RunGadgetFunc` and `StartGadgetFunc` failing, as in
`TestHandlersWithRunGadgetError` and `TestHandlersWithStartGadgetError`. -/
def mockFailingManager : GadgetManager Unit where
  RunGadget := fun _ _ _ s => ((lit "", some (.msg (lit "run gadget failed"))), s)
  StartGadget := fun _ _ _ s => ((lit "", some (.msg (lit "start gadget failed"))), s)
  StopGadget := mockGadgetManager.StopGadget
  GetResults := mockGadgetManager.GetResults
  ListGadgets := mockGadgetManager.ListGadgets
  IsDeployed := mockGadgetManager.IsDeployed

/-! ## The filter expression as the specification words it -/

/-- The request fields of a probe kind that give a filter condition, in the
order of the specification, each with the text that precedes its value in the
condition. -/
def specFilterFields : ProbeKind → List (GoString × GoString)
  | .dns =>
    [(lit "name", lit "name~"), (lit "nameserver", lit "nameserver.addr=="),
      (lit "minimum_latency", lit "latency_ns_raw>="), (lit "response_code", lit "rcode==")]
  | .tcp =>
    [(lit "source_port", lit "src.port=="), (lit "destination_port", lit "dst.port=="),
      (lit "event_type", lit "type==")]
  | .fileOpen => [(lit "path", lit "fname~")]
  | .signal => [(lit "signal", lit "sig==")]
  | _ => []

/-- The condition a request gives for one filter field: the field's text followed
by the value, when the request holds a non-empty string under the field. -/
def specCondition (params : Params) (field : GoString × GoString) : Option GoString :=
  match params field.1 with
  | some (.str v) => if v = lit "" then none else some (field.2 ++ v)
  | _ => none

/-- The filter parameter of the specification: the comma-join of the conditions
of the kind's fields, and no parameter at all when there is no condition. -/
def specFilter (kind : ProbeKind) (params : Params) : Option GoString :=
  match (specFilterFields kind).filterMap (specCondition params) with
  | [] => none
  | conditions => some (stringsJoin conditions (lit ","))

/-- Go `delete(m, key)`: the map without the key. -/
def mapErase {V : Type} (m : GoMap V) (key : GoString) : GoMap V :=
  fun k => if k = key then none else m k

/-! ## Durations as the specification words them -/

/-- A rational number truncated toward zero: its floor when it is not negative,
its ceiling when it is. -/
def specTrunc (q : ℚ) : Int := if 0 ≤ q then ⌊q⌋ else ⌈q⌉

/-- The durations (in nanoseconds) of the `RunGadget` calls in a list of calls. -/
def runGadgetDurations : List Call → List Int
  | [] => []
  | .RunGadget _ _ duration :: rest => duration :: runGadgetDurations rest
  | _ :: rest => runGadgetDurations rest

/-! ## The optional request fields -/

/-- The optional string fields of a probe kind's tool (`registry.go`): the four
scoping fields of every observation tool, then the kind's own filter fields. -/
def optionalStringFields : ProbeKind → List GoString
  | .dns =>
    [lit "namespace", lit "pod", lit "container", lit "selector", lit "name",
      lit "nameserver", lit "minimum_latency", lit "response_code"]
  | .tcp =>
    [lit "namespace", lit "pod", lit "container", lit "selector", lit "source_port",
      lit "destination_port", lit "event_type"]
  | .fileOpen => [lit "namespace", lit "pod", lit "container", lit "selector", lit "path"]
  | .processExecution => [lit "namespace", lit "pod", lit "container", lit "selector"]
  | .signal => [lit "namespace", lit "pod", lit "container", lit "selector", lit "signal"]
  | .systemCall => [lit "namespace", lit "pod", lit "container", lit "selector", lit "syscall"]
  | .topFile => [lit "namespace", lit "pod", lit "container", lit "selector"]
  | .topTCP => [lit "namespace", lit "pod", lit "container", lit "selector"]

/-! ## Theorems -/

/-! ### Literal bytes -/

theorem lit_marker_bytes :
    lit "\n<isTruncated>true</isTruncated>\n" =
      [10, 60, 105, 115, 84, 114, 117, 110, 99, 97, 116, 101, 100, 62, 116, 114, 117, 101,
       60, 47, 105, 115, 84, 114, 117, 110, 99, 97, 116, 101, 100, 62, 10] := by
  decide

theorem lit_results_open_bytes :
    lit "<results>" = [60, 114, 101, 115, 117, 108, 116, 115, 62] := by
  decide

theorem lit_plain_open_bytes :
    lit "\n<results>" = [10, 60, 114, 101, 115, 117, 108, 116, 115, 62] := by
  decide

theorem lit_marked_open_split :
    lit "\n<isTruncated>true</isTruncated>\n<results>" =
      lit "\n<isTruncated>true</isTruncated>\n" ++ lit "<results>" := by
  decide

theorem lit_plain_open_split : lit "\n<results>" = lit "\n" ++ lit "<results>" := by
  decide

theorem maxResultLen_eq : maxResultLen = 65536 := by
  decide

/-! ### Result truncation -/

/-- C1: a payload of at most 65536 bytes is returned unchanged between
`"\n<results>"` and `"</results>\n"`, with no truncation marker. -/
theorem truncateResults_short (s : GoString) (h : s.length ≤ 65536) :
    truncateResults s = lit "\n<results>" ++ s ++ lit "</results>\n" := by
  have hle : ¬ s.length > maxResultLen := by
    rw [maxResultLen_eq]; omega
  simp only [truncateResults, if_neg hle, sprintfS]

theorem truncateResults_short_witness :
    (lit "abc\n").length ≤ 65536 ∧
      truncateResults (lit "abc\n") = lit "\n<results>" ++ lit "abc\n" ++ lit "</results>\n" :=
  ⟨by decide, truncateResults_short (lit "abc\n") (by decide)⟩

/-- C2: the output always ends with `"</results>\n"` after a `<results>` opening
tag, and it starts with the marker `"\n<isTruncated>true</isTruncated>\n"` exactly
when the payload is longer than 65536 bytes. -/
theorem truncateResults_wrapped_marker_iff (s : GoString) :
    (∃ pre body, truncateResults s = pre ++ lit "<results>" ++ body ++ lit "</results>\n") ∧
      lit "</results>\n" <:+ truncateResults s ∧
      (lit "\n<isTruncated>true</isTruncated>\n" <+: truncateResults s ↔ 65536 < s.length) := by
  by_cases hlen : s.length > maxResultLen
  · have hbig : 65536 < s.length := by
      rw [maxResultLen_eq] at hlen; exact hlen
    have hout : truncateResults s =
        lit "\n<isTruncated>true</isTruncated>\n" ++ lit "<results>" ++
          (s.take maxResultLen ++ lit "…") ++ lit "</results>\n" := by
      simp only [truncateResults, if_pos hlen, sprintfS, lit_marked_open_split]
    refine ⟨⟨_, _, hout⟩, ⟨_, hout.symm⟩, ?_⟩
    constructor
    · intro _; exact hbig
    · intro _
      rw [hout]
      exact ⟨lit "<results>" ++ (s.take maxResultLen ++ lit "…") ++ lit "</results>\n", by
        simp only [List.append_assoc]⟩
  · have hsmall : ¬ 65536 < s.length := by
      rw [maxResultLen_eq] at hlen; exact hlen
    have hout : truncateResults s = lit "\n" ++ lit "<results>" ++ s ++ lit "</results>\n" := by
      simp only [truncateResults, if_neg hlen, sprintfS, lit_plain_open_split]
    refine ⟨⟨_, _, hout⟩, ⟨_, hout.symm⟩, ?_⟩
    constructor
    · intro hpre
      exfalso
      have hout2 : truncateResults s = lit "\n<results>" ++ (s ++ lit "</results>\n") := by
        simp only [truncateResults, if_neg hlen, sprintfS, List.append_assoc]
      rw [hout2, lit_marker_bytes, lit_plain_open_bytes] at hpre
      simp [List.cons_prefix_cons] at hpre
    · intro hbig; exact absurd hbig hsmall

/-- C3: a payload longer than 65536 bytes yields the truncation marker, then the
first 65536 bytes of the payload followed by one ellipsis inside the `<results>`
tags. -/
theorem truncateResults_long (s : GoString) (h : 65536 < s.length) :
    truncateResults s =
      lit "\n<isTruncated>true</isTruncated>\n<results>" ++ s.take 65536 ++ lit "…" ++
        lit "</results>\n" := by
  have hgt : s.length > maxResultLen := by
    rw [maxResultLen_eq]; exact h
  simp only [truncateResults, if_pos hgt, sprintfS]
  simp only [maxResultLen_eq, List.append_assoc]

theorem truncateResults_long_witness :
    65536 < (List.replicate 65537 (97 : UInt8)).length ∧
      truncateResults (List.replicate 65537 (97 : UInt8)) =
        lit "\n<isTruncated>true</isTruncated>\n<results>" ++
          (List.replicate 65537 (97 : UInt8)).take 65536 ++ lit "…" ++ lit "</results>\n" :=
  ⟨by rw [List.length_replicate]; decide,
    truncateResults_long (List.replicate 65537 (97 : UInt8))
      (by rw [List.length_replicate]; decide)⟩


/-! ### Instance listing -/

theorem hasAllTags_eq_true_iff (instanceTags tags : List GoString) :
    hasAllTags instanceTags tags = true ↔ ∀ tag ∈ tags, tag ∈ instanceTags := by
  induction tags with
  | nil => simp [hasAllTags]
  | cons t rest ih =>
    by_cases h : t ∈ instanceTags
    · simp [hasAllTags, h, ih]
    · simp [hasAllTags, h]

theorem listGadgetsStep_eq (formatTime : Int → GoString) (tags : List GoString)
    (acc : List GadgetInstance) (inst : RuntimeInstance) :
    listGadgetsStep formatTime tags acc inst =
      acc ++ ([inst].filter (fun i => decide (∀ tag ∈ tags, tag ∈ i.Tags))).map
        (newGadgetInstance formatTime) := by
  unfold listGadgetsStep
  by_cases h0 : tags.length = 0
  · have hnil : tags = [] := List.length_eq_zero.mp h0
    subst hnil
    simp
  · by_cases hall : ∀ tag ∈ tags, tag ∈ inst.Tags
    · have hb : hasAllTags inst.Tags tags = true := (hasAllTags_eq_true_iff _ _).mpr hall
      have hd : decide (∀ tag ∈ tags, tag ∈ inst.Tags) = true := decide_eq_true hall
      simp only [if_neg h0, hb, if_true, List.filter, hd, List.map]
    · have hb : ¬ hasAllTags inst.Tags tags = true := fun hb =>
        hall ((hasAllTags_eq_true_iff _ _).mp hb)
      have hd : decide (∀ tag ∈ tags, tag ∈ inst.Tags) = false := decide_eq_false hall
      simp only [if_neg h0, if_neg hb, List.filter, hd, List.map, List.append_nil]

theorem foldl_listGadgetsStep (formatTime : Int → GoString) (tags : List GoString)
    (instances : List RuntimeInstance) (acc : List GadgetInstance) :
    instances.foldl (listGadgetsStep formatTime tags) acc =
      acc ++ (instances.filter (fun i => decide (∀ tag ∈ tags, tag ∈ i.Tags))).map
        (newGadgetInstance formatTime) := by
  induction instances generalizing acc with
  | nil => simp
  | cons inst rest ih =>
    rw [List.foldl_cons, ih, listGadgetsStep_eq, List.append_assoc, ← List.map_append,
      ← List.filter_append]
    rfl

/-- C4: on a successful runtime listing, the result is exactly the runtime's
instances whose tags contain every tag of the filter (each converted to a
`GadgetInstance`), so an entry is in the result if and only if it comes from such
an instance. -/
theorem ListGadgets_exactly_tag_supersets (formatTime : Int → GoString)
    (instances : List RuntimeInstance) (tags : List GoString) :
    ListGadgets formatTime (.ok instances) tags =
        ((instances.filter (fun i => decide (∀ tag ∈ tags, tag ∈ i.Tags))).map
          (newGadgetInstance formatTime), none) ∧
      ∀ g : GadgetInstance, g ∈ (ListGadgets formatTime (.ok instances) tags).1 ↔
        ∃ i ∈ instances, (∀ tag ∈ tags, tag ∈ i.Tags) ∧ newGadgetInstance formatTime i = g := by
  have heq : ListGadgets formatTime (.ok instances) tags =
      ((instances.filter (fun i => decide (∀ tag ∈ tags, tag ∈ i.Tags))).map
        (newGadgetInstance formatTime), none) := by
    simp only [ListGadgets, foldl_listGadgetsStep, List.nil_append]
  refine ⟨heq, ?_⟩
  intro g
  rw [heq]
  simp only [List.mem_map, List.mem_filter, decide_eq_true_eq]
  constructor
  · rintro ⟨i, ⟨hi, hall⟩, hg⟩
    exact ⟨i, hi, hall, hg⟩
  · rintro ⟨i, hi, hall, hg⟩
    exact ⟨i, ⟨hi, hall⟩, hg⟩

/-- C5: with an empty tag filter the result has one entry per runtime instance,
in order, carrying that instance's ID and tags; so it is as long as the runtime's
list. -/
theorem ListGadgets_empty_filter (formatTime : Int → GoString)
    (instances : List RuntimeInstance) :
    ListGadgets formatTime (.ok instances) [] =
        (instances.map (newGadgetInstance formatTime), none) ∧
      (ListGadgets formatTime (.ok instances) []).1.length = instances.length ∧
      (ListGadgets formatTime (.ok instances) []).1.map (fun g => (g.ID, g.Tags)) =
        instances.map (fun i => (i.Id, i.Tags)) := by
  have heq : ListGadgets formatTime (.ok instances) [] =
      (instances.map (newGadgetInstance formatTime), none) := by
    simp [ListGadgets, foldl_listGadgetsStep]
  refine ⟨heq, ?_, ?_⟩
  · rw [heq]; simp
  · rw [heq]; simp [newGadgetInstance, Function.comp_def]

/-- C6: for every tag filter, the IDs of the returned instances form a
subsequence of the IDs of the runtime's list, so the runtime's order is kept. -/
theorem ListGadgets_preserves_order (formatTime : Int → GoString)
    (instances : List RuntimeInstance) (tags : List GoString) :
    ((ListGadgets formatTime (.ok instances) tags).1.map GadgetInstance.ID).Sublist
      (instances.map RuntimeInstance.Id) := by
  have hid : (fun i : RuntimeInstance => (newGadgetInstance formatTime i).ID) =
      RuntimeInstance.Id := rfl
  simp only [ListGadgets, foldl_listGadgetsStep, List.nil_append, List.map_map,
    Function.comp_def, hid]
  exact (List.filter_sublist _).map _

/-! ### Deployment oracle -/

theorem lit_empty : lit "" = [] := by
  decide

theorem collectNamespaces_eq_from (pods : List Pod) :
    collectNamespaces pods = collectNamespacesFrom [] pods := rfl

theorem collectNamespacesFrom_cons (acc : List GoString) (pod : Pod) (rest : List Pod) :
    collectNamespacesFrom acc (pod :: rest) =
      collectNamespacesFrom
        (if pod.Namespace ∈ acc then acc else acc ++ [pod.Namespace]) rest := by
  by_cases h : pod.Namespace ∈ acc <;> simp [collectNamespacesFrom, h]

theorem mem_collectNamespacesFrom (acc : List GoString) (pods : List Pod) (ns : GoString) :
    ns ∈ collectNamespacesFrom acc pods ↔ ns ∈ acc ∨ ∃ pod ∈ pods, pod.Namespace = ns := by
  induction pods generalizing acc with
  | nil => simp [collectNamespacesFrom]
  | cons pod rest ih =>
    rw [collectNamespacesFrom_cons, ih]
    by_cases h : pod.Namespace ∈ acc
    · rw [if_pos h]
      constructor
      · rintro (hacc | ⟨q, hq, hqn⟩)
        · exact Or.inl hacc
        · exact Or.inr ⟨q, List.mem_cons_of_mem _ hq, hqn⟩
      · rintro (hacc | ⟨q, hq, hqn⟩)
        · exact Or.inl hacc
        · rcases List.mem_cons.mp hq with rfl | hq'
          · exact Or.inl (hqn ▸ h)
          · exact Or.inr ⟨q, hq', hqn⟩
    · rw [if_neg h]
      constructor
      · rintro (hacc | ⟨q, hq, hqn⟩)
        · rcases List.mem_append.mp hacc with hacc' | hs
          · exact Or.inl hacc'
          · exact Or.inr ⟨pod, List.mem_cons_self _ _, (List.mem_singleton.mp hs).symm⟩
        · exact Or.inr ⟨q, List.mem_cons_of_mem _ hq, hqn⟩
      · rintro (hacc | ⟨q, hq, hqn⟩)
        · exact Or.inl (List.mem_append_left _ hacc)
        · rcases List.mem_cons.mp hq with rfl | hq'
          · exact Or.inl (List.mem_append_right _ (List.mem_singleton.mpr hqn.symm))
          · exact Or.inr ⟨q, hq', hqn⟩

theorem mem_collectNamespaces (pods : List Pod) (ns : GoString) :
    ns ∈ collectNamespaces pods ↔ ∃ pod ∈ pods, pod.Namespace = ns := by
  rw [collectNamespaces_eq_from, mem_collectNamespacesFrom]
  simp

theorem one_lt_length_of_two_mem {α : Type} (xs : List α) (a b : α) (ha : a ∈ xs)
    (hb : b ∈ xs) (hne : a ≠ b) : 1 < xs.length := by
  match xs, ha, hb with
  | [x], ha, hb =>
    exact absurd ((List.mem_singleton.mp ha).trans (List.mem_singleton.mp hb).symm) hne
  | _ :: _ :: _, _, _ => simp

theorem collectNamespacesFrom_singleton (ns : GoString) (pods : List Pod)
    (hall : ∀ pod ∈ pods, pod.Namespace = ns) : collectNamespacesFrom [ns] pods = [ns] := by
  induction pods with
  | nil => rfl
  | cons pod rest ih =>
    have hpod : pod.Namespace = ns := hall pod (List.mem_cons_self _ _)
    rw [collectNamespacesFrom_cons, if_pos (by simp [hpod])]
    exact ih (fun q hq => hall q (List.mem_cons_of_mem _ hq))

theorem collectNamespaces_single (ns : GoString) (pods : List Pod) (hne : pods ≠ [])
    (hall : ∀ pod ∈ pods, pod.Namespace = ns) : collectNamespaces pods = [ns] := by
  match pods, hne, hall with
  | pod :: rest, _, hall =>
    have hpod : pod.Namespace = ns := hall pod (List.mem_cons_self _ _)
    rw [collectNamespaces_eq_from, collectNamespacesFrom_cons, if_neg (by simp),
      List.nil_append, hpod]
    exact collectNamespacesFrom_singleton ns rest (fun q hq => hall q (List.mem_cons_of_mem _ hq))

/-- C7: when the pod query succeeds with zero matching pods, the oracle answers
`(false, "", nil)`. -/
theorem IsDeployed_no_pods {Config Client : Type} (restConfig : Config) (client : Client)
    (newForConfig : Config → Except GoError Client)
    (listPods : Client → GoString → GoString → Except GoError (List Pod))
    (hclient : newForConfig restConfig = .ok client)
    (hpods : listPods client (lit "") (lit "k8s-app=gadget") = .ok []) :
    IsDeployed (.ok restConfig) newForConfig listPods = some (false, lit "", none) := by
  simp [IsDeployed, hclient, hpods]

theorem IsDeployed_no_pods_witness :
    @IsDeployed Unit Unit (.ok ()) (fun _ => .ok ())
      (fun _ _ selector => if selector = lit "k8s-app=gadget" then .ok [] else
        .ok [⟨lit "coredns", lit "kube-system"⟩]) = some (false, lit "", none) :=
  IsDeployed_no_pods () () (fun _ => .ok ())
    (fun _ _ selector => if selector = lit "k8s-app=gadget" then .ok [] else
      .ok [⟨lit "coredns", lit "kube-system"⟩]) rfl (by simp)

/-- C8: when the matching pods lie in two or more distinct namespaces, the oracle
fails: it returns `false`, an empty namespace and the "multiple namespaces" error
listing the namespaces found, whatever the order and number of the pods. -/
theorem IsDeployed_multiple_namespaces {Config Client : Type} (restConfig : Config)
    (client : Client) (newForConfig : Config → Except GoError Client)
    (listPods : Client → GoString → GoString → Except GoError (List Pod))
    (pods : List Pod) (p q : Pod)
    (hclient : newForConfig restConfig = .ok client)
    (hpods : listPods client (lit "") (lit "k8s-app=gadget") = .ok pods)
    (hp : p ∈ pods) (hq : q ∈ pods) (hne : p.Namespace ≠ q.Namespace) :
    IsDeployed (.ok restConfig) newForConfig listPods =
      some (false, lit "",
        some (.msg (lit "multiple namespaces found for Inspektor Gadget pods: " ++
          fmtStringsV (collectNamespaces pods)))) := by
  have hlen : pods.length ≠ 0 := fun h0 => by
    rw [List.length_eq_zero.mp h0] at hp; exact absurd hp (List.not_mem_nil _)
  have hmany : (collectNamespaces pods).length > 1 :=
    one_lt_length_of_two_mem _ p.Namespace q.Namespace
      ((mem_collectNamespaces _ _).mpr ⟨p, hp, rfl⟩)
      ((mem_collectNamespaces _ _).mpr ⟨q, hq, rfl⟩) hne
  simp only [IsDeployed, hclient, hpods, if_neg hlen, if_pos hmany]

theorem IsDeployed_multiple_namespaces_witness :
    @IsDeployed Unit Unit (.ok ()) (fun _ => .ok ())
      (fun _ _ _ => .ok [⟨lit "gadget-1", lit "gadget"⟩, ⟨lit "gadget-2", lit "gadget"⟩,
        ⟨lit "gadget-3", lit "kube-system"⟩]) =
      some (false, lit "",
        some (.msg (lit "multiple namespaces found for Inspektor Gadget pods: " ++
          fmtStringsV (collectNamespaces [⟨lit "gadget-1", lit "gadget"⟩,
            ⟨lit "gadget-2", lit "gadget"⟩, ⟨lit "gadget-3", lit "kube-system"⟩])))) :=
  IsDeployed_multiple_namespaces () () (fun _ => .ok ())
    (fun _ _ _ => .ok [⟨lit "gadget-1", lit "gadget"⟩, ⟨lit "gadget-2", lit "gadget"⟩,
      ⟨lit "gadget-3", lit "kube-system"⟩])
    [⟨lit "gadget-1", lit "gadget"⟩, ⟨lit "gadget-2", lit "gadget"⟩,
      ⟨lit "gadget-3", lit "kube-system"⟩]
    ⟨lit "gadget-2", lit "gadget"⟩ ⟨lit "gadget-3", lit "kube-system"⟩ rfl rfl
    (by decide) (by decide) (by decide)

/-- C9: when the pod list is not empty and all its pods are in one namespace `ns`,
the oracle answers `(true, ns, nil)`, however many pods there are. -/
theorem IsDeployed_single_namespace {Config Client : Type} (restConfig : Config)
    (client : Client) (newForConfig : Config → Except GoError Client)
    (listPods : Client → GoString → GoString → Except GoError (List Pod))
    (pods : List Pod) (ns : GoString)
    (hclient : newForConfig restConfig = .ok client)
    (hpods : listPods client (lit "") (lit "k8s-app=gadget") = .ok pods)
    (hne : pods ≠ []) (hall : ∀ pod ∈ pods, pod.Namespace = ns) :
    IsDeployed (.ok restConfig) newForConfig listPods = some (true, ns, none) := by
  have hlen : pods.length ≠ 0 := fun h0 => hne (List.length_eq_zero.mp h0)
  have hone : collectNamespaces pods = [ns] := collectNamespaces_single ns pods hne hall
  simp [IsDeployed, hclient, hpods, hlen, hone]

theorem IsDeployed_single_namespace_witness :
    @IsDeployed Unit Unit (.ok ()) (fun _ => .ok ())
      (fun _ _ _ => .ok [⟨lit "gadget-1", lit "gadget"⟩, ⟨lit "gadget-2", lit "gadget"⟩,
        ⟨lit "gadget-3", lit "gadget"⟩]) = some (true, lit "gadget", none) :=
  IsDeployed_single_namespace () () (fun _ => .ok ())
    (fun _ _ _ => .ok [⟨lit "gadget-1", lit "gadget"⟩, ⟨lit "gadget-2", lit "gadget"⟩,
      ⟨lit "gadget-3", lit "gadget"⟩])
    [⟨lit "gadget-1", lit "gadget"⟩, ⟨lit "gadget-2", lit "gadget"⟩,
      ⟨lit "gadget-3", lit "gadget"⟩]
    (lit "gadget") rfl rfl (by decide) (by decide)

/-- C10: when building the REST config, building the client or the pod query fails
with `err`, the oracle returns a non-nil error wrapping `err` (with `false` and an
empty namespace); it never returns the "not deployed" answer `(false, "", nil)`. -/
theorem IsDeployed_failure_propagates {Config Client : Type}
    (toRESTConfig : Except GoError Config) (newForConfig : Config → Except GoError Client)
    (listPods : Client → GoString → GoString → Except GoError (List Pod)) (err : GoError)
    (hfail : toRESTConfig = .error err ∨
      (∃ restConfig, toRESTConfig = .ok restConfig ∧ newForConfig restConfig = .error err) ∨
      (∃ restConfig client, toRESTConfig = .ok restConfig ∧
        newForConfig restConfig = .ok client ∧
        listPods client (lit "") (lit "k8s-app=gadget") = .error err)) :
    (∃ pre, IsDeployed toRESTConfig newForConfig listPods =
        some (false, lit "", some (.wrap pre err))) ∧
      IsDeployed toRESTConfig newForConfig listPods ≠ some (false, lit "", none) := by
  have hex : ∃ pre, IsDeployed toRESTConfig newForConfig listPods =
      some (false, lit "", some (.wrap pre err)) := by
    rcases hfail with hcfg | ⟨restConfig, hcfg, hclient⟩ | ⟨restConfig, client, hcfg, hclient, hpods⟩
    · exact ⟨lit "creating RESTConfig: ", by simp only [IsDeployed, hcfg]⟩
    · exact ⟨lit "setting up trace client: ", by simp only [IsDeployed, hcfg, hclient]⟩
    · exact ⟨lit "getting pods: ", by simp only [IsDeployed, hcfg, hclient, hpods]⟩
  refine ⟨hex, ?_⟩
  obtain ⟨pre, hpre⟩ := hex
  rw [hpre]
  intro h
  cases h

theorem IsDeployed_failure_propagates_witness :
    (∃ pre, @IsDeployed Unit Unit (.ok ()) (fun _ => .ok ())
        (fun _ _ _ => .error (.msg (lit "connection refused"))) =
        some (false, lit "", some (.wrap pre (.msg (lit "connection refused"))))) ∧
      @IsDeployed Unit Unit (.ok ()) (fun _ => .ok ())
        (fun _ _ _ => .error (.msg (lit "connection refused"))) ≠ some (false, lit "", none) :=
  IsDeployed_failure_propagates (.ok ()) (fun _ => .ok ())
    (fun _ _ _ => .error (.msg (lit "connection refused"))) (.msg (lit "connection refused"))
    (Or.inr (Or.inr ⟨(), (), rfl, rfl, rfl⟩))

/-! ### Tool handlers -/

theorem ProbeKind.handler_eq {σ : Type} (unrepresentable : Float64 → Int)
    (mgr : GadgetManager σ) (kind : ProbeKind) :
    kind.handler unrepresentable mgr =
      inspektorGadgetTraceHandler unrepresentable mgr kind.image kind.toolName
        (kind.customParams unrepresentable) := by
  cases kind <;> rfl

theorem float64ToInt64_natCast (unrepresentable : Float64 → Int) (n : ℕ)
    (h : (n : ℤ) < 2 ^ 63) : float64ToInt64 unrepresentable (.finite (n : ℚ)) = n := by
  have hlow : -(2 : ℤ) ^ 63 ≤ (n : ℤ) := by
    have h0 : (0 : ℤ) ≤ (n : ℤ) := Int.natCast_nonneg n
    have hneg : -(2 : ℤ) ^ 63 ≤ 0 := by decide
    exact le_trans hneg h0
  simp only [float64ToInt64, Rat.num_natCast, Rat.den_natCast, Nat.cast_one, Int.tdiv_one]
  rw [if_pos ⟨hlow, h⟩]

theorem float64ToInt64_ten (unrepresentable : Float64 → Int) :
    wrapInt64 (float64ToInt64 unrepresentable (.finite 10) * timeSecond) = 10000000000 := by
  have hcast : (10 : ℚ) = ((10 : ℕ) : ℚ) := by norm_num
  rw [hcast, float64ToInt64_natCast unrepresentable 10 (by decide)]
  decide

/-- C11: with the runtime deployed, a request whose duration is the number 0 makes
the handler of every probe kind call `StartGadget` once, with the kind's image,
the translated parameter map and the single tag `tool-name=<tool name>`, and no
`RunGadget`; when `StartGadget` succeeds with `id` the handler returns
`"Gadget started with ID: " ++ id` and no error. -/
theorem observe_zero_duration_starts_gadget {σ : Type} (unrepresentable : Float64 → Int)
    (mgr : GadgetManager σ) (kind : ProbeKind) (params : Params) (s s1 : σ) (ns : GoString)
    (hduration : params (lit "duration") = some (.float64 (.finite 0)))
    (hdeployed : mgr.IsDeployed s = ((true, ns, none), s1)) :
    (kind.handler unrepresentable mgr params s).calls =
        [.IsDeployed,
          .StartGadget kind.image
            (buildGadgetParams (kind.customParams unrepresentable) params).2
            [lit "tool-name=" ++ kind.toolName]] ∧
      ∀ (id : GoString) (s2 : σ),
        mgr.StartGadget kind.image
            (buildGadgetParams (kind.customParams unrepresentable) params).2
            [lit "tool-name=" ++ kind.toolName] s1 = ((id, none), s2) →
          (kind.handler unrepresentable mgr params s).payload =
              lit "Gadget started with ID: " ++ id ∧
            (kind.handler unrepresentable mgr params s).err = none := by
  rw [ProbeKind.handler_eq]
  constructor
  · simp only [inspektorGadgetTraceHandler, hduration, hdeployed, assertFloat64,
      Float64.eqZero]
    cases hstart : (mgr.StartGadget kind.image
      (buildGadgetParams (kind.customParams unrepresentable) params).2
      [lit "tool-name=" ++ kind.toolName] s1).1.2 <;> simp
  · intro id s2 hstart
    simp [inspektorGadgetTraceHandler, hduration, hdeployed, assertFloat64,
      Float64.eqZero, hstart, sprintfS, lit_empty]

theorem observe_zero_duration_starts_gadget_witness :
    (ProbeKind.dns.handler (fun _ => 0) mockGadgetManager
        (paramsOf [(lit "duration", .float64 (.finite 0))]) ()).calls =
        [.IsDeployed,
          .StartGadget ProbeKind.dns.image
            (buildGadgetParams (ProbeKind.dns.customParams (fun _ => 0))
              (paramsOf [(lit "duration", .float64 (.finite 0))])).2
            [lit "tool-name=" ++ ProbeKind.dns.toolName]] ∧
      ∀ (id : GoString) (s2 : Unit),
        mockGadgetManager.StartGadget ProbeKind.dns.image
            (buildGadgetParams (ProbeKind.dns.customParams (fun _ => 0))
              (paramsOf [(lit "duration", .float64 (.finite 0))])).2
            [lit "tool-name=" ++ ProbeKind.dns.toolName] () = ((id, none), s2) →
          (ProbeKind.dns.handler (fun _ => 0) mockGadgetManager
              (paramsOf [(lit "duration", .float64 (.finite 0))]) ()).payload =
              lit "Gadget started with ID: " ++ id ∧
            (ProbeKind.dns.handler (fun _ => 0) mockGadgetManager
              (paramsOf [(lit "duration", .float64 (.finite 0))]) ()).err = none :=
  observe_zero_duration_starts_gadget (fun _ => 0) mockGadgetManager ProbeKind.dns
    (paramsOf [(lit "duration", .float64 (.finite 0))]) () () (lit "v1.0.0")
    (by decide) rfl

/-- C12: with the runtime deployed, a request whose duration is absent or is not a
`float64` number makes the handler of every probe kind call `RunGadget` once with a
duration of 10 seconds, and no `StartGadget`; the handler returns the payload of a
successful `RunGadget` unchanged, and on a failed one the empty payload (that the
repository's `RunGadget` returns with an error) with the wrapped error. -/
theorem observe_default_duration_runs_ten_seconds {σ : Type}
    (unrepresentable : Float64 → Int) (mgr : GadgetManager σ) (kind : ProbeKind)
    (params : Params) (s s1 : σ) (ns : GoString)
    (hduration : ∀ f, params (lit "duration") ≠ some (.float64 f))
    (hdeployed : mgr.IsDeployed s = ((true, ns, none), s1)) :
    (kind.handler unrepresentable mgr params s).calls =
        [.IsDeployed,
          .RunGadget kind.image
            (buildGadgetParams (kind.customParams unrepresentable) params).2
            (10 * timeSecond)] ∧
      (∀ (resp : GoString) (s2 : σ),
        mgr.RunGadget kind.image
            (buildGadgetParams (kind.customParams unrepresentable) params).2
            (10 * timeSecond) s1 = ((resp, none), s2) →
          (kind.handler unrepresentable mgr params s).payload = resp ∧
            (kind.handler unrepresentable mgr params s).err = none) ∧
      (∀ (resp : GoString) (err : GoError) (s2 : σ),
        mgr.RunGadget kind.image
            (buildGadgetParams (kind.customParams unrepresentable) params).2
            (10 * timeSecond) s1 = ((resp, some err), s2) →
          (kind.handler unrepresentable mgr params s).payload = lit "" ∧
            (kind.handler unrepresentable mgr params s).err =
              some (.wrap (lit "running gadget: ") err)) := by
  have hnot : (assertFloat64 (params (lit "duration"))) = (.finite 0, false) := by
    cases hp : params (lit "duration") with
    | none => rfl
    | some v =>
      cases v with
      | float64 f => exact absurd hp (hduration f)
      | str _ => rfl
      | duration _ => rfl
      | other _ => rfl
  have hten : (10 : Int) * timeSecond = 10000000000 := by decide
  have hzero : Float64.eqZero (.finite 10) = false := by decide
  rw [ProbeKind.handler_eq, hten]
  refine ⟨?_, ?_, ?_⟩
  · cases hrun : (mgr.RunGadget kind.image
      (buildGadgetParams (kind.customParams unrepresentable) params).2 10000000000 s1).1.2 <;>
      simp [inspektorGadgetTraceHandler, hnot, hdeployed, float64ToInt64_ten, hzero, hrun]
  · intro resp s2 hrun
    simp [inspektorGadgetTraceHandler, hnot, hdeployed, float64ToInt64_ten, hzero, hrun]
  · intro resp err s2 hrun
    simp [inspektorGadgetTraceHandler, hnot, hdeployed, float64ToInt64_ten, hzero, hrun]


theorem observe_default_duration_runs_ten_seconds_witness :
    (∀ f, paramsOf [] (lit "duration") ≠ some (.float64 f)) ∧
      (ProbeKind.dns.handler (fun _ => 0) mockGadgetManager (paramsOf []) ()).calls =
        [.IsDeployed,
          .RunGadget ProbeKind.dns.image
            (buildGadgetParams (ProbeKind.dns.customParams (fun _ => 0)) (paramsOf [])).2
            (10 * timeSecond)] :=
  ⟨fun f => by simp [paramsOf],
    (observe_default_duration_runs_ten_seconds (fun _ => 0) mockGadgetManager ProbeKind.dns
      (paramsOf []) () () (lit "v1.0.0") (fun f => by simp [paramsOf]) rfl).1⟩

/-- C13: when `IsDeployed` reports `(false, _, nil)`, every observation handler,
whatever the request, and the stop and get-results handlers on a request with a
non-empty string id return the empty payload with the fixed error `ErrNotDeployed`,
having called `IsDeployed` only: none of `StartGadget`, `RunGadget`, `StopGadget`,
`GetResults`. -/
theorem not_deployed_gate {σ : Type} (unrepresentable : Float64 → Int)
    (mgr : GadgetManager σ) (s s1 : σ) (ns : GoString)
    (hnot : mgr.IsDeployed s = ((false, ns, none), s1)) :
    (∀ (kind : ProbeKind) (params : Params),
        (kind.handler unrepresentable mgr params s).payload = lit "" ∧
        (kind.handler unrepresentable mgr params s).err = some ErrNotDeployed ∧
        (kind.handler unrepresentable mgr params s).calls = [.IsDeployed]) ∧
      (∀ (params : Params) (id : GoString),
        params (lit "id") = some (.str id) → id ≠ lit "" →
          ((InspektorGadgetStopGadgetHandler mgr params s).payload = lit "" ∧
            (InspektorGadgetStopGadgetHandler mgr params s).err = some ErrNotDeployed ∧
            (InspektorGadgetStopGadgetHandler mgr params s).calls = [.IsDeployed]) ∧
          ((InspektorGadgetGetGadgetResultsHandler mgr params s).payload = lit "" ∧
            (InspektorGadgetGetGadgetResultsHandler mgr params s).err = some ErrNotDeployed ∧
            (InspektorGadgetGetGadgetResultsHandler mgr params s).calls = [.IsDeployed])) := by
  constructor
  · intro kind params
    rw [ProbeKind.handler_eq]
    simp [inspektorGadgetTraceHandler, hnot]
  · intro params id hid hne
    have hne2 : ¬ id = [] := fun h => hne (h.trans lit_empty.symm)
    simp [InspektorGadgetStopGadgetHandler, InspektorGadgetGetGadgetResultsHandler,
      inspektorGadgetLifecycleHandler, hnot, hid, assertString, lit_empty, hne2]

theorem not_deployed_gate_witness :
    (∀ (kind : ProbeKind) (params : Params),
        (kind.handler (fun _ => 0) mockNotDeployedManager params ()).payload = lit "" ∧
        (kind.handler (fun _ => 0) mockNotDeployedManager params ()).err =
          some ErrNotDeployed ∧
        (kind.handler (fun _ => 0) mockNotDeployedManager params ()).calls = [.IsDeployed]) ∧
      (InspektorGadgetStopGadgetHandler mockNotDeployedManager
        (paramsOf [(lit "id", .str (lit "test-gadget-id"))]) ()).err = some ErrNotDeployed :=
  ⟨(not_deployed_gate (fun _ => 0) mockNotDeployedManager () () (lit "") rfl).1,
    ((not_deployed_gate (fun _ => 0) mockNotDeployedManager () () (lit "") rfl).2
      (paramsOf [(lit "id", .str (lit "test-gadget-id"))]) (lit "test-gadget-id")
      (by decide) (by decide)).1.2.1⟩

/-- C14 (the code does otherwise): the list handler makes no deployment check. On
every manager its only call is `ListGadgets(nil)`; on the test manager whose
`IsDeployed` reports `false` it lists the instances and returns them without
error, where the specification asks for `ErrNotDeployed` and no `ListGadgets`
call. -/
theorem list_handler_makes_no_deployment_check :
    (∀ (σ : Type) (jsonMarshal : List GadgetInstance → GoString × Option GoError)
        (mgr : GadgetManager σ) (params : Params) (s : σ),
        (InspektorGadgetListGadgetsHandler jsonMarshal mgr params s).calls =
          [.ListGadgets []]) ∧
      (InspektorGadgetListGadgetsHandler (fun _ => (lit "[]", none)) mockNotDeployedManager
        (paramsOf []) ()).calls = [.ListGadgets []] ∧
      (InspektorGadgetListGadgetsHandler (fun _ => (lit "[]", none)) mockNotDeployedManager
        (paramsOf []) ()).err = none ∧
      (InspektorGadgetListGadgetsHandler (fun _ => (lit "[]", none)) mockNotDeployedManager
        (paramsOf []) ()).payload = lit "[]" := by
  refine ⟨?_, rfl, rfl, rfl⟩
  intro σ jsonMarshal mgr params s
  simp only [InspektorGadgetListGadgetsHandler]
  split
  · rfl
  · split <;> rfl

/-- C15: on a request whose id is absent, is not a string or is the empty string,
the stop and get-results handlers fail with the validation error and an empty
payload without calling any manager method, and leave the manager state as it
was. -/
theorem lifecycle_invalid_id {σ : Type} (mgr : GadgetManager σ) (params : Params) (s : σ)
    (hid : ∀ id, params (lit "id") = some (.str id) → id = lit "") :
    ((InspektorGadgetStopGadgetHandler mgr params s).payload = lit "" ∧
        (InspektorGadgetStopGadgetHandler mgr params s).err =
          some (.msg (lit "invalid or missing 'id' parameter, must be a non-empty string")) ∧
        (InspektorGadgetStopGadgetHandler mgr params s).calls = [] ∧
        (InspektorGadgetStopGadgetHandler mgr params s).state = s) ∧
      ((InspektorGadgetGetGadgetResultsHandler mgr params s).payload = lit "" ∧
        (InspektorGadgetGetGadgetResultsHandler mgr params s).err =
          some (.msg (lit "invalid or missing 'id' parameter, must be a non-empty string")) ∧
        (InspektorGadgetGetGadgetResultsHandler mgr params s).calls = [] ∧
        (InspektorGadgetGetGadgetResultsHandler mgr params s).state = s) := by
  have hcond : (!(assertString (params (lit "id"))).2 ||
      (assertString (params (lit "id"))).1 == lit "") = true := by
    cases hp : params (lit "id") with
    | none => simp [assertString]
    | some v =>
      cases v with
      | str id => simp [assertString, hid id hp]
      | float64 _ => simp [assertString]
      | duration _ => simp [assertString]
      | other _ => simp [assertString]
  simp only [InspektorGadgetStopGadgetHandler, InspektorGadgetGetGadgetResultsHandler,
    inspektorGadgetLifecycleHandler, hcond, if_true, and_self]

theorem lifecycle_invalid_id_witness :
    (∀ id, paramsOf [(lit "id", .str (lit ""))] (lit "id") = some (.str id) → id = lit "") ∧
      (InspektorGadgetStopGadgetHandler mockGadgetManager
        (paramsOf [(lit "id", .str (lit ""))]) ()).calls = [] ∧
      (InspektorGadgetGetGadgetResultsHandler mockGadgetManager
        (paramsOf [(lit "id", .float64 (.finite 7))]) ()).calls = [] :=
  ⟨fun id h => by
      have h2 : some (Value.str (lit "")) = some (Value.str id) := h
      injection h2 with h3
      injection h3 with h4
      exact h4.symm,
    (lifecycle_invalid_id mockGadgetManager (paramsOf [(lit "id", .str (lit ""))]) ()
      (fun id h => by
        have h2 : some (Value.str (lit "")) = some (Value.str id) := h
        injection h2 with h3
        injection h3 with h4
        exact h4.symm)).1.2.2.1,
    (lifecycle_invalid_id mockGadgetManager (paramsOf [(lit "id", .float64 (.finite 7))]) ()
      (fun id h => by
        have h2 : some (Value.float64 (.finite 7)) = some (Value.str id) := h
        injection h2 with h3
        cases h3)).2.2.2.1⟩

theorem customParams_frame (unrepresentable : Float64 → Int) (kind : ProbeKind)
    (params : Params) (key : GoString) (hfilter : key ≠ ParamFilter)
    (hsyscall : key ≠ ParamTraceloopSyscall) (hsort : key ≠ ParamSort)
    (hlimiter : key ≠ ParamLimiter) :
    (buildGadgetParams (kind.customParams unrepresentable) params).2 key =
      kubernetesParams params key := by
  cases kind <;>
    simp only [buildGadgetParams, ProbeKind.customParams, observeDNSCustomParams,
      observeTCPCustomParams, observeFileOpenCustomParams, observeSignalCustomParams,
      observeSystemCallCustomParams, topFileCustomParams, topTCPCustomParams,
      topCustomParams] <;>
    split_ifs <;>
    simp [mapSet, hfilter, hsyscall, hsort, hlimiter]

theorem assertString_cond (x : Option Value) (v : GoString) :
    (((assertString x).2 && (assertString x).1 != lit "") = true ∧ (assertString x).1 = v) ↔
      (x = some (.str v) ∧ v ≠ lit "") := by
  cases x with
  | none => simp [assertString]
  | some y =>
    cases y with
    | str s =>
      simp only [assertString, Bool.true_and, bne_iff_ne, ne_eq, Option.some.injEq,
        Value.str.injEq]
      constructor
      · rintro ⟨h1, rfl⟩; exact ⟨rfl, h1⟩
      · rintro ⟨rfl, h1⟩; exact ⟨h1, rfl⟩
    | float64 f => simp [assertString]
    | duration d => simp [assertString]
    | other t => simp [assertString]

theorem condSet_apply {V : Type} (c : Prop) [Decidable c] (g : GoMap V) (k key : GoString)
    (v : V) :
    (if c then mapSet g k v else g) key = if key = k ∧ c then some v else g key := by
  by_cases hc : c <;> by_cases hk : key = k <;> simp [mapSet, hc, hk]

theorem kubernetesParams_apply (params : Params) (key : GoString) :
    kubernetesParams params key =
      if key = ParamSelector ∧ ((assertString (params (lit "selector"))).2 &&
          (assertString (params (lit "selector"))).1 != lit "") = true then
        some (assertString (params (lit "selector"))).1
      else if key = ParamContainer ∧ ((assertString (params (lit "container"))).2 &&
          (assertString (params (lit "container"))).1 != lit "") = true then
        some (assertString (params (lit "container"))).1
      else if key = ParamPod ∧ ((assertString (params (lit "pod"))).2 &&
          (assertString (params (lit "pod"))).1 != lit "") = true then
        some (assertString (params (lit "pod"))).1
      else if ((assertString (params (lit "namespace"))).2 &&
          (assertString (params (lit "namespace"))).1 != lit "") = true then
        (if key = ParamNamespace then some (assertString (params (lit "namespace"))).1 else none)
      else
        (if key = ParamAllNamespaces then some (lit "true") else none) := by
  simp only [kubernetesParams, condSet_apply]
  by_cases hns : ((assertString (params (lit "namespace"))).2 &&
      (assertString (params (lit "namespace"))).1 != lit "") = true
  · simp only [hns, if_true, mapSet, mapEmpty]
  · simp only [hns, if_false, mapSet, mapEmpty]
    rfl

theorem kubeKeys_ne :
    (ParamSelector ≠ ParamContainer ∧ ParamSelector ≠ ParamPod ∧
      ParamSelector ≠ ParamNamespace ∧ ParamSelector ≠ ParamAllNamespaces) ∧
    (ParamContainer ≠ ParamSelector ∧ ParamContainer ≠ ParamPod ∧
      ParamContainer ≠ ParamNamespace ∧ ParamContainer ≠ ParamAllNamespaces) ∧
    (ParamPod ≠ ParamSelector ∧ ParamPod ≠ ParamContainer ∧
      ParamPod ≠ ParamNamespace ∧ ParamPod ≠ ParamAllNamespaces) ∧
    (ParamNamespace ≠ ParamSelector ∧ ParamNamespace ≠ ParamContainer ∧
      ParamNamespace ≠ ParamPod ∧ ParamNamespace ≠ ParamAllNamespaces) ∧
    (ParamAllNamespaces ≠ ParamSelector ∧ ParamAllNamespaces ≠ ParamContainer ∧
      ParamAllNamespaces ≠ ParamPod ∧ ParamAllNamespaces ≠ ParamNamespace) := by
  decide

theorem kubeKeys_ne_custom :
    (ParamSelector ≠ ParamFilter ∧ ParamSelector ≠ ParamTraceloopSyscall ∧
      ParamSelector ≠ ParamSort ∧ ParamSelector ≠ ParamLimiter) ∧
    (ParamContainer ≠ ParamFilter ∧ ParamContainer ≠ ParamTraceloopSyscall ∧
      ParamContainer ≠ ParamSort ∧ ParamContainer ≠ ParamLimiter) ∧
    (ParamPod ≠ ParamFilter ∧ ParamPod ≠ ParamTraceloopSyscall ∧
      ParamPod ≠ ParamSort ∧ ParamPod ≠ ParamLimiter) ∧
    (ParamNamespace ≠ ParamFilter ∧ ParamNamespace ≠ ParamTraceloopSyscall ∧
      ParamNamespace ≠ ParamSort ∧ ParamNamespace ≠ ParamLimiter) ∧
    (ParamAllNamespaces ≠ ParamFilter ∧ ParamAllNamespaces ≠ ParamTraceloopSyscall ∧
      ParamAllNamespaces ≠ ParamSort ∧ ParamAllNamespaces ≠ ParamLimiter) := by
  decide

theorem cond_lookup_iff (x : Option Value) (v : GoString) :
    (if ((assertString x).2 && (assertString x).1 != lit "") = true then
        some (assertString x).1 else none) = some v ↔
      (x = some (.str v) ∧ v ≠ lit "") := by
  rw [← assertString_cond]
  by_cases h : ((assertString x).2 && (assertString x).1 != lit "") = true <;> simp [h]

theorem kubernetesParams_selector_eq (params : Params) :
    kubernetesParams params ParamSelector =
      if ((assertString (params (lit "selector"))).2 &&
          (assertString (params (lit "selector"))).1 != lit "") = true then
        some (assertString (params (lit "selector"))).1 else none := by
  obtain ⟨⟨h1, h2, h3, h4⟩, -⟩ := kubeKeys_ne
  rw [kubernetesParams_apply]
  simp only [true_and, h1, h2, h3, h4, false_and, if_false]
  split_ifs <;> rfl

theorem kubernetesParams_container_eq (params : Params) :
    kubernetesParams params ParamContainer =
      if ((assertString (params (lit "container"))).2 &&
          (assertString (params (lit "container"))).1 != lit "") = true then
        some (assertString (params (lit "container"))).1 else none := by
  obtain ⟨-, ⟨h1, h2, h3, h4⟩, -⟩ := kubeKeys_ne
  rw [kubernetesParams_apply]
  simp only [true_and, h1, h2, h3, h4, false_and, if_false]
  split_ifs <;> rfl

theorem kubernetesParams_pod_eq (params : Params) :
    kubernetesParams params ParamPod =
      if ((assertString (params (lit "pod"))).2 &&
          (assertString (params (lit "pod"))).1 != lit "") = true then
        some (assertString (params (lit "pod"))).1 else none := by
  obtain ⟨-, -, ⟨h1, h2, h3, h4⟩, -⟩ := kubeKeys_ne
  rw [kubernetesParams_apply]
  simp only [true_and, h1, h2, h3, h4, false_and, if_false]
  split_ifs <;> rfl

theorem kubernetesParams_namespace_eq (params : Params) :
    kubernetesParams params ParamNamespace =
      if ((assertString (params (lit "namespace"))).2 &&
          (assertString (params (lit "namespace"))).1 != lit "") = true then
        some (assertString (params (lit "namespace"))).1 else none := by
  obtain ⟨-, -, -, ⟨h1, h2, h3, h4⟩, -⟩ := kubeKeys_ne
  rw [kubernetesParams_apply]
  simp only [h1, h2, h3, h4, false_and, if_false, if_true]

theorem kubernetesParams_allNamespaces_eq (params : Params) :
    kubernetesParams params ParamAllNamespaces =
      if ((assertString (params (lit "namespace"))).2 &&
          (assertString (params (lit "namespace"))).1 != lit "") = true then
        none else some (lit "true") := by
  obtain ⟨-, -, -, -, ⟨h1, h2, h3, h4⟩⟩ := kubeKeys_ne
  rw [kubernetesParams_apply]
  simp only [h1, h2, h3, h4, false_and, if_false, if_true]

theorem assertString_cond_iff_exists (x : Option Value) :
    ((assertString x).2 && (assertString x).1 != lit "") = true ↔
      ∃ v, x = some (.str v) ∧ v ≠ lit "" := by
  constructor
  · intro h
    exact ⟨(assertString x).1, (assertString_cond x _).mp ⟨h, rfl⟩⟩
  · rintro ⟨v, hv⟩
    exact ((assertString_cond x v).mpr hv).1

theorem traceHandler_handed {σ : Type} (unrepresentable : Float64 → Int)
    (mgr : GadgetManager σ) (kind : ProbeKind) (params : Params) (s s1 : σ) (ns : GoString)
    (hdeployed : mgr.IsDeployed s = ((true, ns, none), s1)) :
    handedGadgetParams (kind.handler unrepresentable mgr params s).calls =
      [(buildGadgetParams (kind.customParams unrepresentable) params).2] := by
  rw [ProbeKind.handler_eq]
  simp only [inspektorGadgetTraceHandler, hdeployed, Bool.not_true, Bool.false_eq_true,
    if_false]
  split_ifs <;> split <;> rfl

/-- C16: with the runtime deployed, the one runtime parameter map the handler of
any probe kind hands to the coordinator holds the namespace key, with the
request's value, exactly when the request gives a non-empty string namespace, and
otherwise the all-namespaces key with `"true"`, so exactly one of the two keys is
present; and it holds each of the pod, container and selector keys, with the
request's value, exactly when the request gives that field as a non-empty
string. -/
theorem kubernetes_scoping {σ : Type} (unrepresentable : Float64 → Int)
    (mgr : GadgetManager σ) (kind : ProbeKind) (params : Params) (s s1 : σ) (ns : GoString)
    (hdeployed : mgr.IsDeployed s = ((true, ns, none), s1)) :
    ∃ gp, handedGadgetParams (kind.handler unrepresentable mgr params s).calls = [gp] ∧
      (∀ v, gp ParamNamespace = some v ↔
        (params (lit "namespace") = some (.str v) ∧ v ≠ lit "")) ∧
      (∀ v, gp ParamAllNamespaces = some v ↔
        (v = lit "true" ∧ ¬ ∃ w, params (lit "namespace") = some (.str w) ∧ w ≠ lit "")) ∧
      (gp ParamNamespace = none ↔ gp ParamAllNamespaces ≠ none) ∧
      (∀ v, gp ParamPod = some v ↔ (params (lit "pod") = some (.str v) ∧ v ≠ lit "")) ∧
      (∀ v, gp ParamContainer = some v ↔
        (params (lit "container") = some (.str v) ∧ v ≠ lit "")) ∧
      (∀ v, gp ParamSelector = some v ↔
        (params (lit "selector") = some (.str v) ∧ v ≠ lit "")) := by
  obtain ⟨⟨s1', s2', s3', s4'⟩, ⟨c1, c2, c3, c4⟩, ⟨p1, p2, p3, p4⟩, ⟨n1, n2, n3, n4⟩,
    ⟨a1, a2, a3, a4⟩⟩ := kubeKeys_ne_custom
  refine ⟨_, traceHandler_handed unrepresentable mgr kind params s s1 ns hdeployed, ?_, ?_, ?_,
    ?_, ?_, ?_⟩
  · intro v
    rw [customParams_frame unrepresentable kind params _ n1 n2 n3 n4,
      kubernetesParams_namespace_eq]
    exact cond_lookup_iff _ v
  · intro v
    rw [customParams_frame unrepresentable kind params _ a1 a2 a3 a4,
      kubernetesParams_allNamespaces_eq, ← assertString_cond_iff_exists]
    by_cases h : ((assertString (params (lit "namespace"))).2 &&
        (assertString (params (lit "namespace"))).1 != lit "") = true
    · simp [h]
    · have hf : ((assertString (params (lit "namespace"))).2 &&
          (assertString (params (lit "namespace"))).1 != lit "") = false := by
        simpa using h
      rw [hf]
      simp only [Bool.false_eq_true, if_false, Option.some.injEq, not_false_eq_true, and_true]
      exact eq_comm
  · rw [customParams_frame unrepresentable kind params _ n1 n2 n3 n4,
      customParams_frame unrepresentable kind params _ a1 a2 a3 a4,
      kubernetesParams_namespace_eq, kubernetesParams_allNamespaces_eq]
    by_cases h : ((assertString (params (lit "namespace"))).2 &&
        (assertString (params (lit "namespace"))).1 != lit "") = true <;> simp [h]
  · intro v
    rw [customParams_frame unrepresentable kind params _ p1 p2 p3 p4, kubernetesParams_pod_eq]
    exact cond_lookup_iff _ v
  · intro v
    rw [customParams_frame unrepresentable kind params _ c1 c2 c3 c4,
      kubernetesParams_container_eq]
    exact cond_lookup_iff _ v
  · intro v
    rw [customParams_frame unrepresentable kind params _ s1' s2' s3' s4',
      kubernetesParams_selector_eq]
    exact cond_lookup_iff _ v

theorem kubernetes_scoping_witness :
    ∃ gp, handedGadgetParams (ProbeKind.dns.handler (fun _ => 0) mockGadgetManager
        (paramsOf [(lit "namespace", .str (lit "default")), (lit "pod", .other 0)]) ()).calls =
          [gp] ∧
      gp ParamNamespace = some (lit "default") ∧ gp ParamAllNamespaces = none ∧
      gp ParamPod = none := by
  obtain ⟨gp, hgp, hns, -, hone, hpod, -⟩ :=
    kubernetes_scoping (fun _ => 0) mockGadgetManager ProbeKind.dns
      (paramsOf [(lit "namespace", .str (lit "default")), (lit "pod", .other 0)]) () ()
      (lit "v1.0.0") rfl
  have hset : gp ParamNamespace = some (lit "default") :=
    (hns (lit "default")).mpr ⟨by decide, by decide⟩
  refine ⟨gp, hgp, hset, ?_, ?_⟩
  · by_contra hall
    have hnone := hone.mpr hall
    rw [hset] at hnone
    cases hnone
  · cases hp : gp ParamPod with
    | none => rfl
    | some v =>
      have hv := ((hpod v).mp hp).1
      have hother : paramsOf [(lit "namespace", .str (lit "default")), (lit "pod", .other 0)]
          (lit "pod") = some (.other 0) := by decide
      rw [hother] at hv
      cases hv

/-- C17: with the runtime deployed, the runtime parameter map the syscall handler
hands to the coordinator always holds the syscall-filter key: with the request's
syscall string when that is a non-empty string, and with the empty string
otherwise. -/
theorem syscall_filter_always_set {σ : Type} (unrepresentable : Float64 → Int)
    (mgr : GadgetManager σ) (params : Params) (s s1 : σ) (ns : GoString)
    (hdeployed : mgr.IsDeployed s = ((true, ns, none), s1)) :
    ∃ gp, handedGadgetParams
        (InspektorGadgetObserveSystemCallHandler unrepresentable mgr params s).calls = [gp] ∧
      gp ParamTraceloopSyscall ≠ none ∧
      (∀ v, params (lit "syscall") = some (.str v) → v ≠ lit "" →
        gp ParamTraceloopSyscall = some v) ∧
      ((¬ ∃ v, params (lit "syscall") = some (.str v) ∧ v ≠ lit "") →
        gp ParamTraceloopSyscall = some (lit "")) := by
  have hgp : (buildGadgetParams (some observeSystemCallCustomParams) params).2
      ParamTraceloopSyscall =
      some (if ((assertString (params (lit "syscall"))).2 &&
          (assertString (params (lit "syscall"))).1 != lit "") = true then
        (assertString (params (lit "syscall"))).1 else lit "") := by
    simp only [buildGadgetParams, observeSystemCallCustomParams]
    split_ifs <;> simp [mapSet]
  refine ⟨_, traceHandler_handed unrepresentable mgr ProbeKind.systemCall params s s1 ns
    hdeployed, ?_, ?_, ?_⟩
  · show (buildGadgetParams (some observeSystemCallCustomParams) params).2
      ParamTraceloopSyscall ≠ none
    rw [hgp]
    exact Option.some_ne_none _
  · intro v hv hne
    show (buildGadgetParams (some observeSystemCallCustomParams) params).2
      ParamTraceloopSyscall = some v
    obtain ⟨hc, hval⟩ := (assertString_cond (params (lit "syscall")) v).mpr ⟨hv, hne⟩
    rw [hgp, if_pos hc, hval]
  · intro hnone
    show (buildGadgetParams (some observeSystemCallCustomParams) params).2
      ParamTraceloopSyscall = some (lit "")
    rw [hgp, if_neg (fun hc => hnone ((assertString_cond_iff_exists _).mp hc))]

theorem syscall_filter_always_set_witness :
    ∃ gp, handedGadgetParams (InspektorGadgetObserveSystemCallHandler (fun _ => 0)
        mockGadgetManager (paramsOf [(lit "syscall", .str (lit "open,close"))]) ()).calls =
          [gp] ∧
      gp ParamTraceloopSyscall = some (lit "open,close") := by
  obtain ⟨gp, hgp, -, hval, -⟩ :=
    syscall_filter_always_set (fun _ => 0) mockGadgetManager
      (paramsOf [(lit "syscall", .str (lit "open,close"))]) () () (lit "v1.0.0") rfl
  exact ⟨gp, hgp, hval (lit "open,close") (by decide) (by decide)⟩

/-! ### Top-file and top-tcp translators -/

theorem topKeys_ne :
    lit "max_entries" ≠ ParamFetchInterval ∧ ParamSort ≠ ParamLimiter ∧
      ParamFetchInterval ≠ ParamLimiter ∧ ParamFetchInterval ≠ ParamSort ∧
      ParamFetchInterval ≠ ParamFilter ∧ ParamFetchInterval ≠ ParamTraceloopSyscall := by
  decide

theorem topCustomParams_positive (sortExpression : GoString)
    (unrepresentable : Float64 → Int) (params : Params) (g : GadgetParams) (d : Float64)
    (hduration : params (lit "duration") = some (.float64 d)) (hpos : d.gtZero = true) :
    (topCustomParams sortExpression unrepresentable params g).2 =
      mapSet (mapSet g ParamSort sortExpression) ParamLimiter
        (if (assertFloat64 (params (lit "max_entries"))).1.gtZero = true then
          fmtD (float64ToInt64 unrepresentable (assertFloat64 (params (lit "max_entries"))).1)
        else lit "10") := by
  have hkey : ∀ x : Value, mapSet params ParamFetchInterval x (lit "max_entries") =
      params (lit "max_entries") := fun x => by
    simp [mapSet, topKeys_ne.1]
  simp only [topCustomParams, hduration, assertFloat64, hpos, if_true, hkey]
  split_ifs <;> rfl

theorem topCustomParams_not_positive (sortExpression : GoString)
    (unrepresentable : Float64 → Int) (params : Params) (g : GadgetParams)
    (hnot : (assertFloat64 (params (lit "duration"))).1.gtZero = false) :
    topCustomParams sortExpression unrepresentable params g = (params, g) := by
  simp [topCustomParams, hnot]

theorem gtZero_natCast (n : ℕ) (hn : 0 < n) : (Float64.finite (n : ℚ)).gtZero = true := by
  simp [Float64.gtZero, hn]

theorem topCustomParams_limiter (sortExpression : GoString)
    (unrepresentable : Float64 → Int) (params : Params) (g : GadgetParams) (d : Float64)
    (hduration : params (lit "duration") = some (.float64 d)) (hpos : d.gtZero = true) :
    (∀ n : ℕ, params (lit "max_entries") = some (.float64 (.finite (n : ℚ))) → 0 < n →
        (n : ℤ) < 2 ^ 63 →
        (topCustomParams sortExpression unrepresentable params g).2 ParamLimiter =
          some (lit (toString n))) ∧
      (params (lit "max_entries") = none →
        (topCustomParams sortExpression unrepresentable params g).2 ParamLimiter =
          some (lit "10")) := by
  rw [topCustomParams_positive sortExpression unrepresentable params g d hduration hpos]
  constructor
  · intro n hmax hn hlt
    simp only [hmax, assertFloat64, gtZero_natCast n hn, if_true,
      float64ToInt64_natCast unrepresentable n hlt, mapSet]
    rfl
  · intro hmax
    have hz : (Float64.finite 0).gtZero = false := by decide
    simp only [hmax, assertFloat64, hz, mapSet]
    rfl

theorem topHandlers_handed {σ : Type} (unrepresentable : Float64 → Int)
    (mgr : GadgetManager σ) (params : Params) (s s1 : σ) (ns : GoString)
    (hdeployed : mgr.IsDeployed s = ((true, ns, none), s1)) :
    handedGadgetParams (InspektorGadgetTopFileHandler unrepresentable mgr params s).calls =
        [(topCustomParams (lit "-rbytes_raw,-wbytes_raw") unrepresentable params
          (kubernetesParams params)).2] ∧
      handedGadgetParams (InspektorGadgetTopTCPHandler unrepresentable mgr params s).calls =
        [(topCustomParams (lit "-sent_raw,-received_raw") unrepresentable params
          (kubernetesParams params)).2] :=
  ⟨traceHandler_handed unrepresentable mgr ProbeKind.topFile params s s1 ns hdeployed,
    traceHandler_handed unrepresentable mgr ProbeKind.topTCP params s s1 ns hdeployed⟩

/-- C18 (corrected): with the runtime deployed and a duration greater than 0, the
runtime parameter map of the top-file and top-tcp handlers holds, under the limiter
key, the decimal rendering of `max_entries` when that is a positive whole number
below 2^63, and `"10"` when `max_entries` is absent. -/
theorem top_limiter_in_int_range {σ : Type} (unrepresentable : Float64 → Int)
    (mgr : GadgetManager σ) (params : Params) (s s1 : σ) (ns : GoString) (d : Float64)
    (hduration : params (lit "duration") = some (.float64 d)) (hpos : d.gtZero = true)
    (hdeployed : mgr.IsDeployed s = ((true, ns, none), s1)) :
    (∃ gp, handedGadgetParams
          (InspektorGadgetTopFileHandler unrepresentable mgr params s).calls = [gp] ∧
        (∀ n : ℕ, params (lit "max_entries") = some (.float64 (.finite (n : ℚ))) → 0 < n →
          (n : ℤ) < 2 ^ 63 → gp ParamLimiter = some (lit (toString n))) ∧
        (params (lit "max_entries") = none → gp ParamLimiter = some (lit "10"))) ∧
      (∃ gp, handedGadgetParams
          (InspektorGadgetTopTCPHandler unrepresentable mgr params s).calls = [gp] ∧
        (∀ n : ℕ, params (lit "max_entries") = some (.float64 (.finite (n : ℚ))) → 0 < n →
          (n : ℤ) < 2 ^ 63 → gp ParamLimiter = some (lit (toString n))) ∧
        (params (lit "max_entries") = none → gp ParamLimiter = some (lit "10"))) := by
  obtain ⟨hfile, htcp⟩ := topHandlers_handed unrepresentable mgr params s s1 ns hdeployed
  exact ⟨⟨_, hfile, topCustomParams_limiter _ unrepresentable params _ d hduration hpos⟩,
    ⟨_, htcp, topCustomParams_limiter _ unrepresentable params _ d hduration hpos⟩⟩

theorem top_limiter_in_int_range_witness :
    ∃ gp, handedGadgetParams (InspektorGadgetTopFileHandler amd64Unrepresentable
        mockGadgetManager
        (paramsOf [(lit "duration", .float64 (.finite 30)),
          (lit "max_entries", .float64 (.finite 20))]) ()).calls = [gp] ∧
      gp ParamLimiter = some (lit "20") := by
  obtain ⟨⟨gp, hgp, hmax, -⟩, -⟩ :=
    top_limiter_in_int_range amd64Unrepresentable mockGadgetManager
      (paramsOf [(lit "duration", .float64 (.finite 30)),
        (lit "max_entries", .float64 (.finite 20))]) () () (lit "v1.0.0") (.finite 30)
      (by decide) (by decide) rfl
  exact ⟨gp, hgp, hmax 20 (by decide) (by decide) (by decide)⟩

/-- C18 as stated fails: for `max_entries` = 2^63, a positive whole number, with
duration 30, the limiter handed to the coordinator is `"-9223372036854775808"` on
amd64 and `"9223372036854775807"` on arm64, not the decimal rendering
`"9223372036854775808"` of `max_entries`. -/
theorem top_limiter_overflow_counterexample :
    (handedGadgetParams (InspektorGadgetTopFileHandler amd64Unrepresentable mockGadgetManager
        (paramsOf [(lit "duration", .float64 (.finite 30)),
          (lit "max_entries", .float64 (.finite 9223372036854775808))]) ()).calls).map
        (fun gp => gp ParamLimiter) = [some (lit "-9223372036854775808")] ∧
      (handedGadgetParams (InspektorGadgetTopFileHandler arm64Unrepresentable mockGadgetManager
        (paramsOf [(lit "duration", .float64 (.finite 30)),
          (lit "max_entries", .float64 (.finite 9223372036854775808))]) ()).calls).map
        (fun gp => gp ParamLimiter) = [some (lit "9223372036854775807")] ∧
      lit (toString (9223372036854775808 : ℕ)) = lit "9223372036854775808" ∧
      lit "-9223372036854775808" ≠ lit (toString (9223372036854775808 : ℕ)) ∧
      lit "9223372036854775807" ≠ lit (toString (9223372036854775808 : ℕ)) := by
  decide

/-- C19 (corrected): with the runtime deployed and a duration greater than 0, the
runtime parameter map holds under the sort key the fixed expression of the kind:
`"-rbytes_raw,-wbytes_raw"` for top-file and `"-sent_raw,-received_raw"` for
top-tcp. -/
theorem top_sort_when_duration_positive {σ : Type} (unrepresentable : Float64 → Int)
    (mgr : GadgetManager σ) (params : Params) (s s1 : σ) (ns : GoString) (d : Float64)
    (hduration : params (lit "duration") = some (.float64 d)) (hpos : d.gtZero = true)
    (hdeployed : mgr.IsDeployed s = ((true, ns, none), s1)) :
    (∃ gp, handedGadgetParams
          (InspektorGadgetTopFileHandler unrepresentable mgr params s).calls = [gp] ∧
        gp ParamSort = some (lit "-rbytes_raw,-wbytes_raw")) ∧
      (∃ gp, handedGadgetParams
          (InspektorGadgetTopTCPHandler unrepresentable mgr params s).calls = [gp] ∧
        gp ParamSort = some (lit "-sent_raw,-received_raw")) := by
  obtain ⟨hfile, htcp⟩ := topHandlers_handed unrepresentable mgr params s s1 ns hdeployed
  have hsort : ∀ e : GoString,
      (topCustomParams e unrepresentable params (kubernetesParams params)).2 ParamSort =
        some e := fun e => by
    rw [topCustomParams_positive e unrepresentable params _ d hduration hpos]
    simp [mapSet, topKeys_ne.2.1]
  exact ⟨⟨_, hfile, hsort _⟩, ⟨_, htcp, hsort _⟩⟩

theorem top_sort_when_duration_positive_witness :
    ∃ gp, handedGadgetParams (InspektorGadgetTopTCPHandler amd64Unrepresentable
        mockGadgetManager (paramsOf [(lit "duration", .float64 (.finite 30))]) ()).calls =
          [gp] ∧
      gp ParamSort = some (lit "-sent_raw,-received_raw") :=
  (top_sort_when_duration_positive amd64Unrepresentable mockGadgetManager
    (paramsOf [(lit "duration", .float64 (.finite 30))]) () () (lit "v1.0.0") (.finite 30)
    (by decide) (by decide) rfl).2

/-- C19 as stated fails: on a top-file request with duration 0, and on one with no
duration, the runtime parameter map handed to the coordinator has no sort key. -/
theorem top_sort_absent_counterexample :
    (InspektorGadgetTopFileHandler amd64Unrepresentable mockGadgetManager
        (paramsOf [(lit "duration", .float64 (.finite 0))]) ()).err = none ∧
      (handedGadgetParams (InspektorGadgetTopFileHandler amd64Unrepresentable
        mockGadgetManager (paramsOf [(lit "duration", .float64 (.finite 0))]) ()).calls).map
        (fun gp => gp ParamSort) = [none] ∧
      (handedGadgetParams (InspektorGadgetTopFileHandler amd64Unrepresentable
        mockGadgetManager (paramsOf []) ()).calls).map (fun gp => gp ParamSort) = [none] := by
  decide

/-- C20 (the code does otherwise): on the top-file request with duration 30 of the
tests, the runtime parameter map handed to the coordinator has no
map-fetch-interval key; the translator stores the interval, 15 seconds, in the
request bag instead. The top-tcp translator does the same. -/
theorem top_fetch_interval_missing :
    (handedGadgetParams (InspektorGadgetTopFileHandler amd64Unrepresentable mockGadgetManager
        (paramsOf [(lit "duration", .float64 (.finite 30))]) ()).calls).map
        (fun gp => gp ParamFetchInterval) = [none] ∧
      (InspektorGadgetTopFileHandler amd64Unrepresentable mockGadgetManager
        (paramsOf [(lit "duration", .float64 (.finite 30))]) ()).params ParamFetchInterval =
        some (.duration (15 * timeSecond)) ∧
      (handedGadgetParams (InspektorGadgetTopTCPHandler amd64Unrepresentable mockGadgetManager
        (paramsOf [(lit "duration", .float64 (.finite 30))]) ()).calls).map
        (fun gp => gp ParamFetchInterval) = [none] ∧
      (InspektorGadgetTopTCPHandler amd64Unrepresentable mockGadgetManager
        (paramsOf [(lit "duration", .float64 (.finite 30))]) ()).params ParamFetchInterval =
        some (.duration (15 * timeSecond)) := by
  decide

/-! ### Size of the truncated output -/

theorem lit_lengths :
    (lit "\n<results>").length = 10 ∧ (lit "</results>\n").length = 11 ∧
      (lit "\n<isTruncated>true</isTruncated>\n<results>").length = 42 ∧
      (lit "…").length = 3 := by
  decide

/-- C29: the output of `truncateResults` is `len(s) + 21` bytes long when
`len(s) <= 65536` and 65592 bytes long otherwise, so never longer than 65592
bytes; and what stands between `<results>` and the ellipsis or the closing tag is
a prefix of `s`. -/
theorem truncateResults_size_bound (s : GoString) :
    (truncateResults s).length = (if s.length ≤ 65536 then s.length + 21 else 65592) ∧
      (truncateResults s).length ≤ 65592 ∧
      ∃ pre body tail, truncateResults s = pre ++ lit "<results>" ++ body ++ tail ∧
        body <+: s ∧ (tail = lit "</results>\n" ∨ tail = lit "…" ++ lit "</results>\n") := by
  obtain ⟨hopen, hclose, hmarked, hdots⟩ := lit_lengths
  by_cases hlen : s.length > maxResultLen
  · have hbig : ¬ s.length ≤ 65536 := by
      rw [maxResultLen_eq] at hlen; omega
    have hlt : 65536 < s.length := by omega
    have hout : truncateResults s =
        lit "\n<isTruncated>true</isTruncated>\n<results>" ++ s.take 65536 ++ lit "…" ++
          lit "</results>\n" := by
      simp only [truncateResults, if_pos hlen, sprintfS]
      simp only [maxResultLen_eq, List.append_assoc]
    have hsize : (truncateResults s).length = 65592 := by
      rw [hout]
      simp only [List.length_append, List.length_take, hopen, hclose, hmarked, hdots]
      omega
    refine ⟨by rw [hsize, if_neg hbig], by rw [hsize], ?_⟩
    refine ⟨lit "\n<isTruncated>true</isTruncated>\n", s.take 65536,
      lit "…" ++ lit "</results>\n", ?_, List.take_prefix _ _, Or.inr rfl⟩
    rw [hout, lit_marked_open_split]
    simp only [List.append_assoc]
  · have hsmall : s.length ≤ 65536 := by
      rw [maxResultLen_eq] at hlen; omega
    have hout : truncateResults s = lit "\n<results>" ++ s ++ lit "</results>\n" := by
      simp only [truncateResults, if_neg hlen, sprintfS]
    have hsize : (truncateResults s).length = s.length + 21 := by
      rw [hout]
      simp only [List.length_append, hopen, hclose]
      omega
    refine ⟨by rw [hsize, if_pos hsmall], by rw [hsize]; omega, ?_⟩
    refine ⟨lit "\n", s, lit "</results>\n", ?_, List.prefix_refl _, Or.inl rfl⟩
    rw [hout, lit_plain_open_split]

/-! ### The namespace list of the deployment oracle -/

theorem collectNamespacesFrom_nodup (acc : List GoString) (pods : List Pod)
    (hacc : acc.Nodup) : (collectNamespacesFrom acc pods).Nodup := by
  induction pods generalizing acc with
  | nil => exact hacc
  | cons pod rest ih =>
    rw [collectNamespacesFrom_cons]
    apply ih
    by_cases h : pod.Namespace ∈ acc
    · rw [if_pos h]; exact hacc
    · rw [if_neg h]
      exact List.Nodup.append hacc (List.nodup_singleton _)
        (by
          intro x hx hx2
          rw [List.mem_singleton] at hx2
          exact h (hx2 ▸ hx))

/-- C30: for a non-empty pod list the namespace list `IsDeployed` builds is not
empty, has no duplicates and holds exactly the namespaces of the pods, so that
reading its first element is defined: `IsDeployed` returns, it does not panic. -/
theorem IsDeployed_first_namespace_defined {Config Client : Type} (restConfig : Config)
    (client : Client) (newForConfig : Config → Except GoError Client)
    (listPods : Client → GoString → GoString → Except GoError (List Pod))
    (pods : List Pod)
    (hclient : newForConfig restConfig = .ok client)
    (hpods : listPods client (lit "") (lit "k8s-app=gadget") = .ok pods)
    (hne : pods ≠ []) :
    collectNamespaces pods ≠ [] ∧ (collectNamespaces pods).Nodup ∧
      (∀ ns, ns ∈ collectNamespaces pods ↔ ∃ pod ∈ pods, pod.Namespace = ns) ∧
      ∃ result, IsDeployed (.ok restConfig) newForConfig listPods = some result := by
  have hnonempty : collectNamespaces pods ≠ [] := by
    match pods, hne with
    | pod :: rest, _ =>
      intro hnil
      have hmem : pod.Namespace ∈ collectNamespaces (pod :: rest) :=
        (mem_collectNamespaces _ _).mpr ⟨pod, List.mem_cons_self _ _, rfl⟩
      rw [hnil] at hmem
      exact absurd hmem (List.not_mem_nil _)
  refine ⟨hnonempty, collectNamespacesFrom_nodup [] pods List.nodup_nil,
    mem_collectNamespaces pods, ?_⟩
  have hlen : pods.length ≠ 0 := fun h0 => hne (List.length_eq_zero.mp h0)
  simp only [IsDeployed, hclient, hpods, if_neg hlen]
  by_cases hmany : (collectNamespaces pods).length > 1
  · simp only [if_pos hmany]; exact ⟨_, rfl⟩
  · simp only [if_neg hmany]
    cases hc : collectNamespaces pods with
    | nil => exact absurd hc hnonempty
    | cons ns rest => exact ⟨_, rfl⟩

theorem IsDeployed_first_namespace_defined_witness :
    collectNamespaces [⟨lit "gadget-1", lit "gadget"⟩, ⟨lit "gadget-2", lit "gadget"⟩] =
        [lit "gadget"] ∧
      ∃ result, @IsDeployed Unit Unit (.ok ()) (fun _ => .ok ())
        (fun _ _ _ => .ok [⟨lit "gadget-1", lit "gadget"⟩, ⟨lit "gadget-2", lit "gadget"⟩]) =
          some result :=
  ⟨by decide,
    (IsDeployed_first_namespace_defined () () (fun _ => .ok ())
      (fun _ _ _ => .ok [⟨lit "gadget-1", lit "gadget"⟩, ⟨lit "gadget-2", lit "gadget"⟩])
      [⟨lit "gadget-1", lit "gadget"⟩, ⟨lit "gadget-2", lit "gadget"⟩] rfl rfl
      (by decide)).2.2.2⟩

/-! ### Filter construction -/

theorem specCondition_eq (params : Params) (field pre : GoString) :
    specCondition params (field, pre) =
      if ((assertString (params field)).2 && (assertString (params field)).1 != lit "") = true
      then some (pre ++ (assertString (params field)).1) else none := by
  unfold specCondition
  cases hp : params field with
  | none => simp [assertString]
  | some v =>
    cases v with
    | str x => by_cases hx : x = lit "" <;> simp [assertString, hx]
    | float64 _ => simp [assertString]
    | duration _ => simp [assertString]
    | other _ => simp [assertString]

theorem kubernetesParams_filter (params : Params) : kubernetesParams params ParamFilter = none := by
  obtain ⟨⟨h1, -⟩, ⟨h2, -⟩, ⟨h3, -⟩, ⟨h4, -⟩, ⟨h5, -⟩⟩ := kubeKeys_ne_custom
  rw [kubernetesParams_apply]
  simp only [h1.symm, h2.symm, h3.symm, h4.symm, h5.symm, false_and, if_false]
  split_ifs <;> rfl

theorem observeDNS_filter (params : Params) (g : GadgetParams) (hg : g ParamFilter = none) :
    (observeDNSCustomParams params g).2 ParamFilter = specFilter .dns params := by
  simp only [specFilter, specFilterFields, List.filterMap_cons, List.filterMap_nil,
    specCondition_eq, observeDNSCustomParams, sprintfS, lit_empty, List.append_nil,
    List.nil_append]
  by_cases h1 : ((assertString (params (lit "name"))).2 &&
      (assertString (params (lit "name"))).1 != []) = true <;>
  by_cases h2 : ((assertString (params (lit "nameserver"))).2 &&
      (assertString (params (lit "nameserver"))).1 != []) = true <;>
  by_cases h3 : ((assertString (params (lit "minimum_latency"))).2 &&
      (assertString (params (lit "minimum_latency"))).1 != []) = true <;>
  by_cases h4 : ((assertString (params (lit "response_code"))).2 &&
      (assertString (params (lit "response_code"))).1 != []) = true <;>
  simp [h1, h2, h3, h4, mapSet, hg]

theorem observeTCP_filter (params : Params) (g : GadgetParams) (hg : g ParamFilter = none) :
    (observeTCPCustomParams params g).2 ParamFilter = specFilter .tcp params := by
  simp only [specFilter, specFilterFields, List.filterMap_cons, List.filterMap_nil,
    specCondition_eq, observeTCPCustomParams, sprintfS, lit_empty, List.append_nil,
    List.nil_append]
  by_cases h1 : ((assertString (params (lit "source_port"))).2 &&
      (assertString (params (lit "source_port"))).1 != []) = true <;>
  by_cases h2 : ((assertString (params (lit "destination_port"))).2 &&
      (assertString (params (lit "destination_port"))).1 != []) = true <;>
  by_cases h3 : ((assertString (params (lit "event_type"))).2 &&
      (assertString (params (lit "event_type"))).1 != []) = true <;>
  simp [h1, h2, h3, mapSet, hg]

theorem stringsJoin_singleton (x sep : GoString) : stringsJoin [x] sep = x := by
  simp [stringsJoin]

theorem observeFileOpen_filter (params : Params) (g : GadgetParams)
    (hg : g ParamFilter = none) :
    (observeFileOpenCustomParams params g).2 ParamFilter = specFilter .fileOpen params := by
  simp only [specFilter, specFilterFields, List.filterMap_cons, List.filterMap_nil,
    specCondition_eq, observeFileOpenCustomParams, sprintfS, lit_empty, List.append_nil]
  by_cases h1 : ((assertString (params (lit "path"))).2 &&
      (assertString (params (lit "path"))).1 != []) = true <;>
  simp [h1, mapSet, hg, stringsJoin_singleton]

theorem observeSignal_filter (params : Params) (g : GadgetParams) (hg : g ParamFilter = none) :
    (observeSignalCustomParams params g).2 ParamFilter = specFilter .signal params := by
  simp only [specFilter, specFilterFields, List.filterMap_cons, List.filterMap_nil,
    specCondition_eq, observeSignalCustomParams, sprintfS, lit_empty, List.append_nil]
  by_cases h1 : ((assertString (params (lit "signal"))).2 &&
      (assertString (params (lit "signal"))).1 != []) = true <;>
  simp [h1, mapSet, hg, stringsJoin_singleton]

theorem specCondition_eq_none_iff (params : Params) (field : GoString × GoString) :
    specCondition params field = none ↔
      ¬ ∃ v, params field.1 = some (.str v) ∧ v ≠ lit "" := by
  obtain ⟨f, pre⟩ := field
  rw [specCondition_eq, ← assertString_cond_iff_exists]
  by_cases h : ((assertString (params f)).2 && (assertString (params f)).1 != lit "") = true <;>
    simp [h]

theorem specFilter_eq_none_iff (kind : ProbeKind) (params : Params) :
    specFilter kind params = none ↔
      ∀ field ∈ specFilterFields kind,
        ¬ ∃ v, params field.1 = some (.str v) ∧ v ≠ lit "" := by
  have hnil : (specFilterFields kind).filterMap (specCondition params) = [] ↔
      ∀ field ∈ specFilterFields kind, specCondition params field = none := by
    simp [List.filterMap_eq_nil_iff]
  simp only [← specCondition_eq_none_iff, ← hnil, specFilter]
  cases (specFilterFields kind).filterMap (specCondition params) <;> simp

/-- C21: with the runtime deployed, the runtime parameter map of the DNS, TCP,
file-open and signal handlers holds under the filter key the comma-join, in the
fixed field order, of one condition per field the request gives as a non-empty
string; and the key is absent exactly when the request gives none of the kind's
fields so. -/
theorem filter_construction {σ : Type} (unrepresentable : Float64 → Int)
    (mgr : GadgetManager σ) (kind : ProbeKind) (params : Params) (s s1 : σ) (ns : GoString)
    (hkind : kind = .dns ∨ kind = .tcp ∨ kind = .fileOpen ∨ kind = .signal)
    (hdeployed : mgr.IsDeployed s = ((true, ns, none), s1)) :
    ∃ gp, handedGadgetParams (kind.handler unrepresentable mgr params s).calls = [gp] ∧
      gp ParamFilter = specFilter kind params ∧
      (gp ParamFilter = none ↔
        ∀ field ∈ specFilterFields kind,
          ¬ ∃ v, params field.1 = some (.str v) ∧ v ≠ lit "") := by
  have hval : (buildGadgetParams (kind.customParams unrepresentable) params).2 ParamFilter =
      specFilter kind params := by
    rcases hkind with rfl | rfl | rfl | rfl
    · exact observeDNS_filter params _ (kubernetesParams_filter params)
    · exact observeTCP_filter params _ (kubernetesParams_filter params)
    · exact observeFileOpen_filter params _ (kubernetesParams_filter params)
    · exact observeSignal_filter params _ (kubernetesParams_filter params)
  refine ⟨_, traceHandler_handed unrepresentable mgr kind params s s1 ns hdeployed, hval, ?_⟩
  rw [hval]
  exact specFilter_eq_none_iff kind params

theorem filter_construction_witness :
    ∃ gp, handedGadgetParams (ProbeKind.dns.handler (fun _ => 0) mockGadgetManager
        (paramsOf [(lit "name", .str (lit "example.com")), (lit "nameserver", .str (lit "")),
          (lit "response_code", .str (lit "Success"))]) ()).calls = [gp] ∧
      gp ParamFilter = some (lit "name~example.com,rcode==Success") := by
  obtain ⟨gp, hgp, hval, -⟩ :=
    filter_construction (fun _ => 0) mockGadgetManager ProbeKind.dns
      (paramsOf [(lit "name", .str (lit "example.com")), (lit "nameserver", .str (lit "")),
        (lit "response_code", .str (lit "Success"))]) () () (lit "v1.0.0") (Or.inl rfl) rfl
  refine ⟨gp, hgp, hval.trans ?_⟩
  decide

/-! ### Errors of the tool handlers -/

theorem traceHandler_payload_or_ok {σ : Type} (unrepresentable : Float64 → Int)
    (mgr : GadgetManager σ) (gadgetImage toolName : GoString)
    (customParams : Option customParamFunc) (params : Params) (s : σ) :
    (inspektorGadgetTraceHandler unrepresentable mgr gadgetImage toolName customParams
        params s).payload = lit "" ∨
      (inspektorGadgetTraceHandler unrepresentable mgr gadgetImage toolName customParams
        params s).err = none := by
  simp only [inspektorGadgetTraceHandler]
  repeat' split
  all_goals first | exact Or.inl rfl | exact Or.inr rfl

theorem lifecycleHandlers_payload_or_ok {σ : Type} (mgr : GadgetManager σ) (params : Params)
    (s : σ) :
    ((InspektorGadgetStopGadgetHandler mgr params s).payload = lit "" ∨
        (InspektorGadgetStopGadgetHandler mgr params s).err = none) ∧
      ((InspektorGadgetGetGadgetResultsHandler mgr params s).payload = lit "" ∨
        (InspektorGadgetGetGadgetResultsHandler mgr params s).err = none) := by
  constructor
  · simp only [InspektorGadgetStopGadgetHandler, inspektorGadgetLifecycleHandler,
      stopGadgetOperation]
    repeat' split
    all_goals first | exact Or.inl rfl | exact Or.inr rfl
  · simp only [InspektorGadgetGetGadgetResultsHandler, inspektorGadgetLifecycleHandler,
      getGadgetResultsOperation]
    repeat' split
    all_goals first | exact Or.inl rfl | exact Or.inr rfl

theorem listHandler_payload_or_ok {σ : Type}
    (jsonMarshal : List GadgetInstance → GoString × Option GoError) (mgr : GadgetManager σ)
    (params : Params) (s : σ) :
    (InspektorGadgetListGadgetsHandler jsonMarshal mgr params s).payload = lit "" ∨
      (InspektorGadgetListGadgetsHandler jsonMarshal mgr params s).err = none := by
  simp only [InspektorGadgetListGadgetsHandler]
  repeat' split
  all_goals first | exact Or.inl rfl | exact Or.inr rfl

/-- C24: whatever the request and the manager, a tool handler (the eight
observation handlers, stop, get-results, list) that returns a non-nil error
returns the empty payload. -/
theorem error_implies_empty_payload {σ : Type} (unrepresentable : Float64 → Int)
    (jsonMarshal : List GadgetInstance → GoString × Option GoError) (mgr : GadgetManager σ)
    (tool : Tool) (params : Params) (s : σ)
    (herr : (tool.handler unrepresentable jsonMarshal mgr params s).err ≠ none) :
    (tool.handler unrepresentable jsonMarshal mgr params s).payload = lit "" := by
  have hor : (tool.handler unrepresentable jsonMarshal mgr params s).payload = lit "" ∨
      (tool.handler unrepresentable jsonMarshal mgr params s).err = none := by
    cases tool with
    | observe kind =>
      simp only [Tool.handler, ProbeKind.handler_eq]
      exact traceHandler_payload_or_ok _ _ _ _ _ _ _
    | stop => exact (lifecycleHandlers_payload_or_ok mgr params s).1
    | getResults => exact (lifecycleHandlers_payload_or_ok mgr params s).2
    | list => exact listHandler_payload_or_ok jsonMarshal mgr params s
  rcases hor with h | h
  · exact h
  · exact absurd h herr

theorem error_implies_empty_payload_witness :
    (Tool.handler (fun _ => 0) (fun _ => (lit "[]", none)) mockFailingManager
        (.observe .dns) (paramsOf []) ()).err =
        some (.wrap (lit "running gadget: ") (.msg (lit "run gadget failed"))) ∧
      (Tool.handler (fun _ => 0) (fun _ => (lit "[]", none)) mockFailingManager
        (.observe .dns) (paramsOf []) ()).payload = lit "" :=
  ⟨by decide,
    error_implies_empty_payload (fun _ => 0) (fun _ => (lit "[]", none)) mockFailingManager
      (.observe .dns) (paramsOf []) () (by decide)⟩

theorem traceHandler_errors_wrapped {σ : Type} (unrepresentable : Float64 → Int)
    (mgr : GadgetManager σ) (gadgetImage toolName : GoString)
    (customParams : Option customParamFunc) (params : Params) (s : σ) :
    (∀ e ∈ returnedErrors mgr
        (inspektorGadgetTraceHandler unrepresentable mgr gadgetImage toolName customParams
          params s).calls s,
        ∃ pre, (inspektorGadgetTraceHandler unrepresentable mgr gadgetImage toolName
          customParams params s).err = some (.wrap pre e)) ∧
      ((inspektorGadgetTraceHandler unrepresentable mgr gadgetImage toolName customParams
        params s).calls.map Call.method).Nodup := by
  simp only [inspektorGadgetTraceHandler]
  repeat' split
  all_goals simp_all [returnedErrors, Call.perform, Call.method]

theorem stopHandler_errors_wrapped {σ : Type} (mgr : GadgetManager σ) (params : Params)
    (s : σ) :
    (∀ e ∈ returnedErrors mgr (InspektorGadgetStopGadgetHandler mgr params s).calls s,
        ∃ pre, (InspektorGadgetStopGadgetHandler mgr params s).err = some (.wrap pre e)) ∧
      ((InspektorGadgetStopGadgetHandler mgr params s).calls.map Call.method).Nodup := by
  simp only [InspektorGadgetStopGadgetHandler, inspektorGadgetLifecycleHandler,
    stopGadgetOperation]
  repeat' split
  all_goals simp_all [returnedErrors, Call.perform, Call.method]

theorem getResultsHandler_errors_wrapped {σ : Type} (mgr : GadgetManager σ) (params : Params)
    (s : σ) :
    (∀ e ∈ returnedErrors mgr (InspektorGadgetGetGadgetResultsHandler mgr params s).calls s,
        ∃ pre, (InspektorGadgetGetGadgetResultsHandler mgr params s).err =
          some (.wrap pre e)) ∧
      ((InspektorGadgetGetGadgetResultsHandler mgr params s).calls.map Call.method).Nodup := by
  simp only [InspektorGadgetGetGadgetResultsHandler, inspektorGadgetLifecycleHandler,
    getGadgetResultsOperation]
  repeat' split
  all_goals simp_all [returnedErrors, Call.perform, Call.method]

theorem listHandler_errors_wrapped {σ : Type}
    (jsonMarshal : List GadgetInstance → GoString × Option GoError) (mgr : GadgetManager σ)
    (params : Params) (s : σ) :
    (∀ e ∈ returnedErrors mgr (InspektorGadgetListGadgetsHandler jsonMarshal mgr params s).calls
        s,
        ∃ pre, (InspektorGadgetListGadgetsHandler jsonMarshal mgr params s).err =
          some (.wrap pre e)) ∧
      ((InspektorGadgetListGadgetsHandler jsonMarshal mgr params s).calls.map
        Call.method).Nodup := by
  simp only [InspektorGadgetListGadgetsHandler]
  repeat' split
  all_goals simp_all [returnedErrors, Call.perform, Call.method]

/-- C25: for every tool handler, request and manager, every error the manager
returns for a call the handler makes is the cause wrapped by the error the handler
returns, and no manager method is called more than once. -/
theorem manager_errors_wrapped_not_retried {σ : Type} (unrepresentable : Float64 → Int)
    (jsonMarshal : List GadgetInstance → GoString × Option GoError) (mgr : GadgetManager σ)
    (tool : Tool) (params : Params) (s : σ) :
    (∀ e ∈ returnedErrors mgr (tool.handler unrepresentable jsonMarshal mgr params s).calls s,
        ∃ pre, (tool.handler unrepresentable jsonMarshal mgr params s).err =
          some (.wrap pre e)) ∧
      ((tool.handler unrepresentable jsonMarshal mgr params s).calls.map Call.method).Nodup := by
  cases tool with
  | observe kind =>
    simp only [Tool.handler, ProbeKind.handler_eq]
    exact traceHandler_errors_wrapped _ _ _ _ _ _ _
  | stop => exact stopHandler_errors_wrapped mgr params s
  | getResults => exact getResultsHandler_errors_wrapped mgr params s
  | list => exact listHandler_errors_wrapped jsonMarshal mgr params s

theorem manager_errors_wrapped_not_retried_witness :
    returnedErrors mockFailingManager
        (Tool.handler (fun _ => 0) (fun _ => (lit "[]", none)) mockFailingManager
          (.observe .dns) (paramsOf [(lit "duration", .float64 (.finite 0))]) ()).calls () =
        [.msg (lit "start gadget failed")] ∧
      ∃ pre, (Tool.handler (fun _ => 0) (fun _ => (lit "[]", none)) mockFailingManager
          (.observe .dns) (paramsOf [(lit "duration", .float64 (.finite 0))]) ()).err =
        some (.wrap pre (.msg (lit "start gadget failed"))) :=
  ⟨by decide,
    (manager_errors_wrapped_not_retried (fun _ => 0) (fun _ => (lit "[]", none))
      mockFailingManager (.observe .dns)
      (paramsOf [(lit "duration", .float64 (.finite 0))]) ()).1
      (.msg (lit "start gadget failed")) (by decide)⟩

/-! ### The request bag after a handler ran -/

theorem traceHandler_params {σ : Type} (unrepresentable : Float64 → Int)
    (mgr : GadgetManager σ) (gadgetImage toolName : GoString)
    (customParams : Option customParamFunc) (params : Params) (s : σ) :
    (inspektorGadgetTraceHandler unrepresentable mgr gadgetImage toolName customParams
        params s).params = params ∨
      (inspektorGadgetTraceHandler unrepresentable mgr gadgetImage toolName customParams
        params s).params = (buildGadgetParams customParams params).1 := by
  simp only [inspektorGadgetTraceHandler]
  repeat' split
  all_goals first | exact Or.inl rfl | exact Or.inr rfl

theorem buildGadgetParams_fst_of_not_top (unrepresentable : Float64 → Int) (kind : ProbeKind)
    (params : Params) (hfile : kind ≠ .topFile) (htcp : kind ≠ .topTCP) :
    (buildGadgetParams (kind.customParams unrepresentable) params).1 = params := by
  cases kind
  case topFile => exact absurd rfl hfile
  case topTCP => exact absurd rfl htcp
  all_goals
    simp only [buildGadgetParams, ProbeKind.customParams, observeDNSCustomParams,
      observeTCPCustomParams, observeFileOpenCustomParams, observeSignalCustomParams,
      observeSystemCallCustomParams]
    try split_ifs <;> rfl

/-- C22 (the code does otherwise): the top-file and top-tcp translators write to
the request bag. On the request with duration 30 of the tests, which has no entry
under the map-fetch-interval key, the bag holds a 15 second `time.Duration` under
that key once the handler has run. The handlers of the six other kinds leave the
request bag as it was. -/
theorem top_translators_write_request_bag :
    paramsOf [(lit "duration", .float64 (.finite 30))] ParamFetchInterval = none ∧
      (InspektorGadgetTopFileHandler amd64Unrepresentable mockGadgetManager
        (paramsOf [(lit "duration", .float64 (.finite 30))]) ()).params ParamFetchInterval =
        some (.duration 15000000000) ∧
      (InspektorGadgetTopTCPHandler amd64Unrepresentable mockGadgetManager
        (paramsOf [(lit "duration", .float64 (.finite 30))]) ()).params ParamFetchInterval =
        some (.duration 15000000000) ∧
      ∀ (σ : Type) (unrepresentable : Float64 → Int) (mgr : GadgetManager σ)
        (kind : ProbeKind) (params : Params) (s : σ),
        kind ≠ .topFile → kind ≠ .topTCP →
          (kind.handler unrepresentable mgr params s).params = params := by
  refine ⟨by decide, by decide, by decide, ?_⟩
  intro σ unrepresentable mgr kind params s hfile htcp
  rw [ProbeKind.handler_eq]
  rcases traceHandler_params unrepresentable mgr kind.image kind.toolName
    (kind.customParams unrepresentable) params s with h | h
  · exact h
  · rw [h]
    exact buildGadgetParams_fst_of_not_top unrepresentable kind params hfile htcp

/-! ### The timed branch -/

theorem tdiv_num_den_eq_specTrunc (q : ℚ) : Int.tdiv q.num q.den = specTrunc q := by
  unfold specTrunc
  by_cases h : 0 ≤ q
  · rw [if_pos h, Rat.floor_def]
    exact Int.tdiv_eq_ediv (Rat.num_nonneg.mpr h) (Int.natCast_nonneg _)
  · rw [if_neg h]
    have hneg : 0 ≤ -q.num := by
      rw [← Rat.neg_num]; exact Rat.num_nonneg.mpr (by linarith)
    have hceil : ⌈q⌉ = -⌊-q⌋ := by rw [Int.floor_neg, neg_neg]
    have htdiv : q.num.tdiv q.den = -((-q.num).tdiv q.den) := by
      rw [Int.neg_tdiv, neg_neg]
    rw [hceil, Rat.floor_def, Rat.neg_num, Rat.neg_den, htdiv,
      Int.tdiv_eq_ediv hneg (Int.natCast_nonneg _)]

theorem wrapInt64_of_range (n : Int) (hlow : -9223372036854775808 ≤ n)
    (hhigh : n < 9223372036854775808) : wrapInt64 n = n := by
  unfold wrapInt64
  norm_num
  omega

theorem timeout_of_range (unrepresentable : Float64 → Int) (q : ℚ)
    (hrange : |specTrunc q| ≤ 9223372036) :
    wrapInt64 (float64ToInt64 unrepresentable (.finite q) * timeSecond) =
      specTrunc q * timeSecond := by
  have habs := abs_le.mp hrange
  have hconv : float64ToInt64 unrepresentable (.finite q) = specTrunc q := by
    simp only [float64ToInt64, tdiv_num_den_eq_specTrunc]
    rw [if_pos]
    constructor
    · norm_num; omega
    · norm_num; omega
  rw [hconv]
  apply wrapInt64_of_range
  · unfold timeSecond; omega
  · unfold timeSecond; omega

theorem traceHandler_timed_calls {σ : Type} (unrepresentable : Float64 → Int)
    (mgr : GadgetManager σ) (kind : ProbeKind) (params : Params) (s s1 : σ) (ns : GoString)
    (d : Float64) (hduration : params (lit "duration") = some (.float64 d))
    (hne : d.eqZero = false) (hdeployed : mgr.IsDeployed s = ((true, ns, none), s1)) :
    (kind.handler unrepresentable mgr params s).calls =
      [.IsDeployed,
        .RunGadget kind.image (buildGadgetParams (kind.customParams unrepresentable) params).2
          (wrapInt64 (float64ToInt64 unrepresentable d * timeSecond))] := by
  rw [ProbeKind.handler_eq]
  cases hrun : (mgr.RunGadget kind.image
      (buildGadgetParams (kind.customParams unrepresentable) params).2
      (wrapInt64 (float64ToInt64 unrepresentable d * timeSecond)) s1).1.2 <;>
    simp [inspektorGadgetTraceHandler, hduration, hdeployed, assertFloat64, hne, hrun]

theorem specTrunc_of_abs_lt_one (q : ℚ) (h : |q| < 1) : specTrunc q = 0 := by
  have habs := abs_lt.mp h
  unfold specTrunc
  by_cases h0 : 0 ≤ q
  · rw [if_pos h0, Int.floor_eq_iff]
    constructor
    · simpa using h0
    · simpa using habs.2
  · rw [if_neg h0, Int.ceil_eq_iff]
    constructor
    · simpa using habs.1
    · simpa using le_of_lt (not_le.mp h0)

/-- C28 (corrected): with the runtime deployed, a request whose duration is a
number `d` other than 0 makes the handler of every probe kind call `RunGadget`,
and no `StartGadget`; when `d` is finite and `d` truncated toward zero is at most
9223372036 in absolute value, the duration passed is that many seconds. So a `d`
with `0 < |d| < 1` gives a `RunGadget` call with duration zero, and a negative `d`
gives the (non-positive) duration of its ceiling in seconds, not 10 seconds. -/
theorem timed_branch_truncates_duration {σ : Type} (unrepresentable : Float64 → Int)
    (mgr : GadgetManager σ) (kind : ProbeKind) (params : Params) (s s1 : σ) (ns : GoString)
    (q : ℚ) (hduration : params (lit "duration") = some (.float64 (.finite q)))
    (hne : q ≠ 0) (hrange : |specTrunc q| ≤ 9223372036)
    (hdeployed : mgr.IsDeployed s = ((true, ns, none), s1)) :
    (kind.handler unrepresentable mgr params s).calls =
        [.IsDeployed,
          .RunGadget kind.image
            (buildGadgetParams (kind.customParams unrepresentable) params).2
            (specTrunc q * timeSecond)] ∧
      (|q| < 1 →
        (kind.handler unrepresentable mgr params s).calls =
          [.IsDeployed,
            .RunGadget kind.image
              (buildGadgetParams (kind.customParams unrepresentable) params).2 0]) ∧
      (q < 0 →
        (kind.handler unrepresentable mgr params s).calls =
            [.IsDeployed,
              .RunGadget kind.image
                (buildGadgetParams (kind.customParams unrepresentable) params).2
                (⌈q⌉ * timeSecond)] ∧
          ⌈q⌉ * timeSecond ≤ 0) := by
  have hzero : Float64.eqZero (.finite q) = false := by simp [Float64.eqZero, hne]
  have hcalls := traceHandler_timed_calls unrepresentable mgr kind params s s1 ns (.finite q)
    hduration hzero hdeployed
  rw [timeout_of_range unrepresentable q hrange] at hcalls
  refine ⟨hcalls, ?_, ?_⟩
  · intro hlt
    rw [hcalls, specTrunc_of_abs_lt_one q hlt, zero_mul]
  · intro hneg
    have htrunc : specTrunc q = ⌈q⌉ := by
      unfold specTrunc
      rw [if_neg (not_le.mpr hneg)]
    rw [hcalls, htrunc]
    refine ⟨rfl, ?_⟩
    have hceil : ⌈q⌉ ≤ 0 := Int.ceil_le.mpr (by simpa using le_of_lt hneg)
    have hsec : (0 : Int) ≤ timeSecond := by decide
    exact mul_nonpos_of_nonpos_of_nonneg hceil hsec

theorem timed_branch_truncates_duration_witness :
    (ProbeKind.dns.handler amd64Unrepresentable mockGadgetManager
        (paramsOf [(lit "duration", .float64 (.finite (-5 / 2)))]) ()).calls =
      [.IsDeployed,
        .RunGadget ProbeKind.dns.image
          (buildGadgetParams (ProbeKind.dns.customParams amd64Unrepresentable)
            (paramsOf [(lit "duration", .float64 (.finite (-5 / 2)))])).2
          (specTrunc (-5 / 2) * timeSecond)] ∧
      specTrunc (-5 / 2) = -2 := by
  have htrunc : specTrunc (-5 / 2) = -2 := by
    unfold specTrunc
    rw [if_neg (by norm_num), Int.ceil_eq_iff]
    constructor <;> norm_num
  exact ⟨(timed_branch_truncates_duration amd64Unrepresentable mockGadgetManager ProbeKind.dns
      (paramsOf [(lit "duration", .float64 (.finite (-5 / 2)))]) () () (lit "v1.0.0")
      (-5 / 2) rfl (by norm_num) (by rw [htrunc]; decide) rfl).1, htrunc⟩

/-- C28 as stated fails: for the duration 10000000000 (seconds), whose truncation
times one second is 10^19 nanoseconds, the 64-bit `time.Duration` product wraps and
`RunGadget` is called with -8446744073709551616 nanoseconds. -/
theorem timed_branch_overflow_counterexample :
    runGadgetDurations (ProbeKind.dns.handler amd64Unrepresentable mockGadgetManager
        (paramsOf [(lit "duration", .float64 (.finite 10000000000))]) ()).calls =
        [-8446744073709551616] ∧
      specTrunc 10000000000 * timeSecond = 10000000000000000000 ∧
      (-8446744073709551616 : Int) ≠ 10000000000000000000 := by
  refine ⟨by decide, ?_, by decide⟩
  have htrunc : specTrunc 10000000000 = 10000000000 := by
    unfold specTrunc
    rw [if_pos (by norm_num)]
    exact Int.floor_ofNat _
  rw [htrunc]
  decide

/-! ### Starting a gadget -/

theorem hexDigit_injective :
    ∀ i j : Fin 16, hextable.getD i.val 0 = hextable.getD j.val 0 → i = j := by
  decide

theorem hexDigit_mem : ∀ i : Fin 16, hextable.getD i.val 0 ∈ lit "0123456789abcdef" := by
  decide

theorem hexByte_injective (a b : UInt8)
    (hhigh : hextable.getD (a.toNat / 16) 0 = hextable.getD (b.toNat / 16) 0)
    (hlow : hextable.getD (a.toNat % 16) 0 = hextable.getD (b.toNat % 16) 0) : a = b := by
  have ha : a.toNat < 256 := a.val.isLt
  have hb : b.toNat < 256 := b.val.isLt
  have h1 := hexDigit_injective ⟨a.toNat / 16, by omega⟩ ⟨b.toNat / 16, by omega⟩ hhigh
  have h2 := hexDigit_injective ⟨a.toNat % 16, by omega⟩ ⟨b.toNat % 16, by omega⟩ hlow
  have h1' : a.toNat / 16 = b.toNat / 16 := congrArg Fin.val h1
  have h2' : a.toNat % 16 = b.toNat % 16 := congrArg Fin.val h2
  have hnat : a.toNat = b.toNat := by omega
  exact UInt8.ext_iff.mpr hnat

theorem hexEncodeToString_cons (v : UInt8) (rest : List UInt8) :
    hexEncodeToString (v :: rest) =
      hextable.getD (v.toNat / 16) 0 :: hextable.getD (v.toNat % 16) 0 ::
        hexEncodeToString rest := by
  simp [hexEncodeToString]

theorem hexEncodeToString_length (src : List UInt8) :
    (hexEncodeToString src).length = 2 * src.length := by
  induction src with
  | nil => rfl
  | cons v rest ih =>
    rw [hexEncodeToString_cons]
    simp only [List.length_cons, ih]
    omega

theorem hexEncodeToString_injective (a b : List UInt8)
    (h : hexEncodeToString a = hexEncodeToString b) : a = b := by
  induction a generalizing b with
  | nil =>
    cases b with
    | nil => rfl
    | cons v rest =>
      have hlen := congrArg List.length h
      rw [hexEncodeToString_length, hexEncodeToString_length] at hlen
      simp at hlen
  | cons v rest ih =>
    cases b with
    | nil =>
      have hlen := congrArg List.length h
      rw [hexEncodeToString_length, hexEncodeToString_length] at hlen
      simp at hlen
    | cons w rest2 =>
      rw [hexEncodeToString_cons, hexEncodeToString_cons] at h
      injection h with h1 h
      injection h with h2 h
      rw [hexByte_injective v w h1 h2, ih rest2 h]

theorem hexEncodeToString_chars (src : List UInt8) :
    ∀ c ∈ hexEncodeToString src, c ∈ lit "0123456789abcdef" := by
  induction src with
  | nil => intro c hc; exact absurd hc (List.not_mem_nil _)
  | cons v rest ih =>
    intro c hc
    rw [hexEncodeToString_cons] at hc
    have hv : v.toNat < 256 := v.val.isLt
    rcases List.mem_cons.mp hc with rfl | hc
    · exact hexDigit_mem ⟨v.toNat / 16, by omega⟩
    · rcases List.mem_cons.mp hc with rfl | hc
      · exact hexDigit_mem ⟨v.toNat % 16, by omega⟩
      · exact ih c hc

/-- C23: for 16 random bytes `b` and any tag list, when the three parameter sets
and the runtime's run succeed, `StartGadget` returns the hex encoding of `b`, the
same string it set as the runtime's id parameter, next to detach = `"true"` and
tags = the tag list joined with `","`; that ID has exactly 32 characters, each of
them in `0-9a-f`, and differs from the ID of any other 16 bytes. -/
theorem StartGadget_hex_id (keys : GrpcParamKeys) (pSet : GoString → GoString → Option GoError)
    (runGadget : RuntimeRun → Option GoError) (image : GoString) (params : GadgetParams)
    (tags : List GoString) (b : List UInt8) (hb : b.length = 16)
    (hset : ∀ key value, pSet key value = none)
    (hrun : ∀ run, runGadget run = none) :
    StartGadget keys (.ok b) pSet runGadget image params tags =
        ((hexEncodeToString b, none),
          [{ image := image,
             runtimeParams :=
               [(keys.ParamID, hexEncodeToString b), (keys.ParamDetach, lit "true"),
                 (keys.ParamTags, stringsJoin tags (lit ","))],
             gadgetParams := params }]) ∧
      (hexEncodeToString b).length = 32 ∧
      (∀ c ∈ hexEncodeToString b, c ∈ lit "0123456789abcdef") ∧
      (∀ b' : List UInt8, b'.length = 16 → b' ≠ b →
        hexEncodeToString b' ≠ hexEncodeToString b) := by
  refine ⟨?_, ?_, hexEncodeToString_chars b, ?_⟩
  · simp only [StartGadget, hset, hrun]
  · rw [hexEncodeToString_length, hb]
  · intro b' _ hne heq
    exact hne (hexEncodeToString_injective b' b heq)

theorem StartGadget_hex_id_witness :
    (StartGadget ⟨lit "id", lit "detach", lit "tags"⟩
        (.ok [18, 52, 86, 120, 154, 188, 222, 240, 15, 237, 203, 169, 135, 101, 67, 33])
        (fun _ _ => none) (fun _ => none) dnsGadgetImage mapEmpty
        [lit "tool-name=inspektor_gadget_observe_dns"]).1 =
      (lit "123456789abcdef00fedcba987654321", none) := by
  have h := (StartGadget_hex_id ⟨lit "id", lit "detach", lit "tags"⟩ (fun _ _ => none)
    (fun _ => none) dnsGadgetImage mapEmpty [lit "tool-name=inspektor_gadget_observe_dns"]
    [18, 52, 86, 120, 154, 188, 222, 240, 15, 237, 203, 169, 135, 101, 67, 33] (by decide) (fun _ _ => rfl)
    (fun _ => rfl)).1
  rw [h]
  decide

/-! ### Running a gadget -/

theorem foldl_writeRecord (keep : GoString × GoString → Bool)
    (emitted : List (GoString × GoString)) (results : GoString) :
    emitted.foldl
        (fun results record => if keep record then writeRecord results record.2 else results)
        results =
      results ++ (((emitted.filter keep).map Prod.snd).map (fun r => r ++ lit "\n")).flatten := by
  have hnl : lit "\n" = [10] := by decide
  induction emitted generalizing results with
  | nil => simp
  | cons record rest ih =>
    rw [List.foldl_cons, ih]
    by_cases hk : keep record = true
    · simp [hk, writeRecord, hnl]
    · simp [hk]

/-- C27: when the runtime's run succeeds, `RunGadget` returns `truncateResults` of
the records emitted on the subscribed data sources, in emission order, each
followed by one newline, and no error; when the run fails it returns the empty
payload and the wrapped error, whatever was emitted. -/
theorem RunGadget_collects_records (quote : GoString → GoString)
    (dataSources : List DataSource) (emitted : List (GoString × GoString)) :
    RunGadget quote dataSources emitted none =
        (truncateResults
          ((((emitted.filter (fun record =>
              (outputDataOperatorInit quote [] dataSources).1.any
                (fun d => d.Name == record.1))).map Prod.snd).map
            (fun r => r ++ lit "\n")).flatten), none) ∧
      ∀ err : GoError, RunGadget quote dataSources emitted (some err) =
        (lit "", some (.wrap (lit "running gadget: ") err)) := by
  constructor
  · simp only [RunGadget]
    rw [foldl_writeRecord (fun record =>
      (outputDataOperatorInit quote [] dataSources).1.any (fun d => d.Name == record.1))]
    simp
  · intro err
    rfl

theorem RunGadget_skips_unsubscribed_example :
    RunGadget (fun name => name)
        [⟨lit "dns", mapEmpty, none⟩,
          ⟨lit "debug", mapSet mapEmpty (lit "cli.default-output-mode") (lit "none"), none⟩]
        [(lit "dns", lit "a"), (lit "debug", lit "x"), (lit "dns", lit "b")] none =
      (lit "\n<results>a\nb\n</results>\n", none) := by
  decide

/-! ### Malformed optional fields -/

theorem kubernetesParams_congr (p p' : Params)
    (hS : ∀ k ∈ [lit "namespace", lit "pod", lit "container", lit "selector"],
      ((assertString (p' k)).2 && (assertString (p' k)).1 != lit "") =
          ((assertString (p k)).2 && (assertString (p k)).1 != lit "") ∧
        (assertString (p' k)).1 = (assertString (p k)).1) :
    kubernetesParams p' = kubernetesParams p := by
  have h1 := hS (lit "namespace") (by simp)
  have h2 := hS (lit "pod") (by simp)
  have h3 := hS (lit "container") (by simp)
  have h4 := hS (lit "selector") (by simp)
  simp only [kubernetesParams]
  simp only [h1.1, h2.1, h3.1, h4.1]
  simp only [h1.2, h2.2, h3.2, h4.2]

theorem ite_pair_snd {α β : Type} (c : Prop) [Decidable c] (a a' : α) (b b' : β) :
    (if c then (a, b) else (a', b')).2 = if c then b else b' := by
  split_ifs <;> rfl

theorem scopingFields_subset (kind : ProbeKind) :
    ∀ k ∈ [lit "namespace", lit "pod", lit "container", lit "selector"],
      k ∈ optionalStringFields kind := by
  intro k hk
  simp only [List.mem_cons, List.mem_singleton, List.not_mem_nil, or_false] at hk
  cases kind <;> rcases hk with rfl | rfl | rfl | rfl <;> simp [optionalStringFields]

theorem buildGadgetParams_congr (unrepresentable : Float64 → Int) (kind : ProbeKind)
    (p p' : Params)
    (hS : ∀ k ∈ optionalStringFields kind,
      ((assertString (p' k)).2 && (assertString (p' k)).1 != lit "") =
          ((assertString (p k)).2 && (assertString (p k)).1 != lit "") ∧
        (assertString (p' k)).1 = (assertString (p k)).1)
    (hD : assertFloat64 (p' (lit "duration")) = assertFloat64 (p (lit "duration")))
    (hM : assertFloat64 (p' (lit "max_entries")) = assertFloat64 (p (lit "max_entries"))) :
    (buildGadgetParams (kind.customParams unrepresentable) p').2 =
      (buildGadgetParams (kind.customParams unrepresentable) p).2 := by
  have hk : kubernetesParams p' = kubernetesParams p :=
    kubernetesParams_congr p p' (fun k hmem => hS k (scopingFields_subset kind k hmem))
  have hkey : ∀ (m : Params) (x : Value), mapSet m ParamFetchInterval x (lit "max_entries") =
      m (lit "max_entries") := fun m x => by
    simp [mapSet, topKeys_ne.1]
  cases kind
  case dns =>
    have h1 := hS (lit "name") (by decide)
    have h2 := hS (lit "nameserver") (by decide)
    have h3 := hS (lit "minimum_latency") (by decide)
    have h4 := hS (lit "response_code") (by decide)
    simp only [buildGadgetParams, ProbeKind.customParams, observeDNSCustomParams, hk]
    simp only [h1.1, h2.1, h3.1, h4.1]
    simp only [h1.2, h2.2, h3.2, h4.2, ite_pair_snd]
  case tcp =>
    have h1 := hS (lit "source_port") (by decide)
    have h2 := hS (lit "destination_port") (by decide)
    have h3 := hS (lit "event_type") (by decide)
    simp only [buildGadgetParams, ProbeKind.customParams, observeTCPCustomParams, hk]
    simp only [h1.1, h2.1, h3.1]
    simp only [h1.2, h2.2, h3.2, ite_pair_snd]
  case fileOpen =>
    have h1 := hS (lit "path") (by decide)
    simp only [buildGadgetParams, ProbeKind.customParams, observeFileOpenCustomParams, hk]
    simp only [h1.1]
    simp only [h1.2, ite_pair_snd]
  case processExecution =>
    simp only [buildGadgetParams, ProbeKind.customParams, hk]
  case signal =>
    have h1 := hS (lit "signal") (by decide)
    simp only [buildGadgetParams, ProbeKind.customParams, observeSignalCustomParams, hk]
    simp only [h1.1]
    simp only [h1.2, ite_pair_snd]
  case systemCall =>
    have h1 := hS (lit "syscall") (by decide)
    simp only [buildGadgetParams, ProbeKind.customParams, observeSystemCallCustomParams, hk]
    simp only [h1.1]
    simp only [h1.2, ite_pair_snd]
  case topFile =>
    simp only [buildGadgetParams, ProbeKind.customParams, topFileCustomParams,
      topCustomParams, hk, hD, hkey, hM]
    split_ifs <;> rfl
  case topTCP =>
    simp only [buildGadgetParams, ProbeKind.customParams, topTCPCustomParams,
      topCustomParams, hk, hD, hkey, hM]
    split_ifs <;> rfl

theorem traceHandler_congr {σ : Type} (unrepresentable : Float64 → Int)
    (mgr : GadgetManager σ) (gadgetImage toolName : GoString)
    (customParams : Option customParamFunc) (p p' : Params) (s : σ)
    (hD : assertFloat64 (p' (lit "duration")) = assertFloat64 (p (lit "duration")))
    (hmap : (buildGadgetParams customParams p').2 = (buildGadgetParams customParams p).2) :
    (inspektorGadgetTraceHandler unrepresentable mgr gadgetImage toolName customParams p'
        s).payload =
        (inspektorGadgetTraceHandler unrepresentable mgr gadgetImage toolName customParams p
          s).payload ∧
      (inspektorGadgetTraceHandler unrepresentable mgr gadgetImage toolName customParams p'
        s).err =
        (inspektorGadgetTraceHandler unrepresentable mgr gadgetImage toolName customParams p
          s).err ∧
      (inspektorGadgetTraceHandler unrepresentable mgr gadgetImage toolName customParams p'
        s).calls =
        (inspektorGadgetTraceHandler unrepresentable mgr gadgetImage toolName customParams p
          s).calls := by
  simp only [inspektorGadgetTraceHandler, hD, hmap]
  refine ⟨?_, ?_, ?_⟩ <;> (repeat' split) <;> rfl

theorem erase_string_agrees (params : Params) (field : GoString) (v : Value) (k : GoString)
    (hfield : params field = some v) (hv : ∀ x, v = .str x → x = lit "") :
    ((assertString (mapErase params field k)).2 &&
          (assertString (mapErase params field k)).1 != lit "") =
        ((assertString (params k)).2 && (assertString (params k)).1 != lit "") ∧
      (assertString (mapErase params field k)).1 = (assertString (params k)).1 := by
  by_cases hk : k = field
  · subst hk
    have herase : mapErase params k k = none := by simp [mapErase]
    rw [herase, hfield]
    cases v with
    | str x =>
      rw [hv x rfl]
      simp [assertString]
    | float64 _ => simp [assertString]
    | duration _ => simp [assertString]
    | other _ => simp [assertString]
  · have herase : mapErase params field k = params k := by simp [mapErase, hk]
    rw [herase]
    exact ⟨rfl, rfl⟩

theorem numberFields_not_string (kind : ProbeKind) :
    lit "duration" ∉ optionalStringFields kind ∧
      lit "max_entries" ∉ optionalStringFields kind ∧ lit "duration" ≠ lit "max_entries" := by
  cases kind <;> decide

/-- C26: a request in which an optional string field (namespace, pod, container,
selector, a filter field of the kind) holds an empty string or a value that is not
a string, or in which `max_entries` (top-file, top-tcp) holds a value that is not a
number, yields the same runtime parameter map as the request without that field,
and the handler returns the same payload and error after the same manager calls:
the malformed field raises no error. -/
theorem malformed_optional_field_ignored {σ : Type} (unrepresentable : Float64 → Int)
    (mgr : GadgetManager σ) (kind : ProbeKind) (params : Params) (field : GoString)
    (v : Value) (s : σ) (hfield : params field = some v)
    (hmalformed :
      (field ∈ optionalStringFields kind ∧ ∀ x, v = .str x → x = lit "") ∨
      ((kind = .topFile ∨ kind = .topTCP) ∧ field = lit "max_entries" ∧
        ∀ f, v ≠ .float64 f)) :
    (buildGadgetParams (kind.customParams unrepresentable) params).2 =
        (buildGadgetParams (kind.customParams unrepresentable) (mapErase params field)).2 ∧
      (kind.handler unrepresentable mgr params s).payload =
        (kind.handler unrepresentable mgr (mapErase params field) s).payload ∧
      (kind.handler unrepresentable mgr params s).err =
        (kind.handler unrepresentable mgr (mapErase params field) s).err ∧
      (kind.handler unrepresentable mgr params s).calls =
        (kind.handler unrepresentable mgr (mapErase params field) s).calls := by
  obtain ⟨hdur, hmax, hdm⟩ := numberFields_not_string kind
  have hagree :
      (∀ k ∈ optionalStringFields kind,
        ((assertString (mapErase params field k)).2 &&
              (assertString (mapErase params field k)).1 != lit "") =
            ((assertString (params k)).2 && (assertString (params k)).1 != lit "") ∧
          (assertString (mapErase params field k)).1 = (assertString (params k)).1) ∧
        assertFloat64 (mapErase params field (lit "duration")) =
          assertFloat64 (params (lit "duration")) ∧
        assertFloat64 (mapErase params field (lit "max_entries")) =
          assertFloat64 (params (lit "max_entries")) := by
    rcases hmalformed with ⟨hmem, hv⟩ | ⟨-, hf, hv⟩
    · have hd : lit "duration" ≠ field := fun h => hdur (h ▸ hmem)
      have hm : lit "max_entries" ≠ field := fun h => hmax (h ▸ hmem)
      refine ⟨fun k _ => erase_string_agrees params field v k hfield hv, ?_, ?_⟩
      · simp [mapErase, hd]
      · simp [mapErase, hm]
    · subst hf
      refine ⟨?_, ?_, ?_⟩
      · intro k hk
        have hne : k ≠ lit "max_entries" := fun h => hmax (h ▸ hk)
        have herase : mapErase params (lit "max_entries") k = params k := by
          simp [mapErase, hne]
        rw [herase]
        exact ⟨rfl, rfl⟩
      · simp [mapErase, hdm]
      · have herase : mapErase params (lit "max_entries") (lit "max_entries") = none := by
          simp [mapErase]
        rw [herase, hfield]
        cases v with
        | float64 f => exact absurd rfl (hv f)
        | str _ => rfl
        | duration _ => rfl
        | other _ => rfl
  obtain ⟨hS, hD, hM⟩ := hagree
  have hmap := buildGadgetParams_congr unrepresentable kind params (mapErase params field)
    hS hD hM
  have hrun := traceHandler_congr unrepresentable mgr kind.image kind.toolName
    (kind.customParams unrepresentable) params (mapErase params field) s hD hmap
  rw [ProbeKind.handler_eq]
  exact ⟨hmap.symm, hrun.1.symm, hrun.2.1.symm, hrun.2.2.symm⟩

theorem malformed_optional_field_ignored_witness :
    (ProbeKind.topFile.handler amd64Unrepresentable mockGadgetManager
        (paramsOf [(lit "duration", .float64 (.finite 30)),
          (lit "max_entries", .str (lit "20"))]) ()).calls =
      (ProbeKind.topFile.handler amd64Unrepresentable mockGadgetManager
        (mapErase (paramsOf [(lit "duration", .float64 (.finite 30)),
          (lit "max_entries", .str (lit "20"))]) (lit "max_entries")) ()).calls :=
  (malformed_optional_field_ignored amd64Unrepresentable mockGadgetManager ProbeKind.topFile
    (paramsOf [(lit "duration", .float64 (.finite 30)), (lit "max_entries", .str (lit "20"))])
    (lit "max_entries") (.str (lit "20")) () (by decide)
    (Or.inr ⟨Or.inl rfl, rfl, fun f h => by cases h⟩)).2.2.2

end InspektorGadget
